import Mathlib

/-!
Verification development for the droplet lifecycle orchestrator in
src/domc.py.  The script sequences DigitalOcean API calls (create, destroy
with optional snapshot, restore) around unbounded polling loops.

Shallow embedding conventions:
* Remote provider behaviour is an oracle: each poll iteration's response is
  a function of the iteration index, and each fallible call's outcome is an
  Except value supplied as input.
* Every provider interaction is recorded as an event (Ev); the functions
  return the trace of events they perform, so the temporal claims become
  statements about event ordering inside the returned list.
* The unbounded while-loops of the script are embedded with a fuel
  parameter; a result of none means the loop did not finish within the
  given fuel (the script would still be spinning).
* time.sleep is recorded as an Ev.sleep event; logging and printing are not
  modelled (they touch no provider or persisted state).
* The persisted file snapshot_info.json is modelled as SnapFile: none when
  the file does not exist, otherwise the parsed JSON object as an
  association list.
-/

namespace Domc

/-- An asynchronous action record as returned by droplet.get_actions();
the script inspects only the type and status fields
(src/domc.py, wait_for_action_completion). -/
structure Action where
  type : String
  status : String
deriving DecidableEq, Repr

/-- Boot image selector of a droplet: either a distribution slug string
(create path uses the literal fedora-39-x64) or a snapshot ID
(restore path). -/
inductive Image where
  | slug (s : String)
  | snapshot (id : Nat)
deriving DecidableEq, Repr

/-- Exceptions of the script: config-file errors raised by read_config and
provider/SDK errors raised by API calls. -/
inductive Err where
  | fileNotFound
  | jsonDecode
  | valueError
  | providerErr (msg : String)
deriving DecidableEq, Repr

/-- One entry of the account snapshot listing (manager.get_all_snapshots()):
the script reads only name and id. -/
structure Snapshot where
  name : String
  id : Nat
deriving DecidableEq, Repr

/-- Provider interactions performed by the script, recorded in order.
Payloads record what the script observed or sent. -/
inductive Ev where
  /-- manager.get_droplet at the start of shutdown_and_snapshot. -/
  | getDroplet (droplet_id : Nat)
  /-- droplet.shutdown(). -/
  | shutdownCall (droplet_id : Nat)
  /-- droplet.get_actions() inside wait_for_action_completion, carrying the
  awaited action type and the action list observed this iteration. -/
  | fetchActions (droplet_id : Nat) (action_type : String) (actions : List Action)
  /-- droplet.get_actions() (or a per-action load) raising inside the poll. -/
  | fetchActionsFail (droplet_id : Nat) (action_type : String)
  /-- time.sleep(3). -/
  | sleep
  /-- droplet.load() after the shutdown wait. -/
  | loadDroplet (droplet_id : Nat)
  /-- manager.get_volume (detach loop of shutdown_and_snapshot, and the
  first line of cleanup_volume). -/
  | getVolume (volume_id : String)
  /-- volume.detach(droplet.id, region). -/
  | detachCall (volume_id : String) (droplet_id : Nat)
  /-- manager.get_droplet + droplet.load inside wait_for_volume_detachment,
  carrying the attached-volume list observed this iteration. -/
  | pollDroplet (droplet_id : Nat) (volume_ids : List String)
  /-- droplet.take_snapshot(name). -/
  | takeSnapshot (droplet_id : Nat) (name : String)
  /-- manager.get_all_snapshots(). -/
  | getAllSnapshots
  /-- write of snapshot_info.json by update_snapshot_info. -/
  | writeSnapshotInfo (snapshot_id : Nat)
  /-- droplet.destroy() at the end of shutdown_and_snapshot. -/
  | deleteDroplet (droplet_id : Nat)
  /-- volume.create() inside create_volume. -/
  | createVolumeCall (name : String)
  /-- manager.get_all_sshkeys(). -/
  | getSshKeys
  /-- droplet.create(), carrying the boot image and attached volume ids. -/
  | createDropletCall (image : Image) (volumes : List String)
  /-- manager.get_droplet inside cleanup_droplet (id may be None when
  droplet.create raised before assigning one). -/
  | getDropletCall (droplet_id : Option Nat)
  /-- droplet.destroy() inside cleanup_droplet. -/
  | destroyDroplet (droplet_id : Option Nat)
  /-- volume.destroy() inside cleanup_volume. -/
  | destroyVolume (volume_id : String)
  /-- manager.get_image(snapshot_id) in restore_droplet_from_snapshot. -/
  | getImage (snapshot_id : Nat)
deriving DecidableEq, Repr

/-- The persisted snapshot_info.json: none when the file does not exist,
otherwise the parsed JSON object as an association list (the script only
ever writes the single key SNAPSHOT_ID). -/
abbrev SnapFile := Option (List (String × Nat))

/-- read_snapshot_info: returns the empty dict when the file is absent,
otherwise the parsed contents (src/domc.py lines 38-44). -/
def read_snapshot_info (file : SnapFile) : List (String × Nat) :=
  file.getD []

/-- update_snapshot_info: overwrites the file with the single-key object
holding the new snapshot id (src/domc.py lines 46-50). -/
def update_snapshot_info (snapshot_id : Nat) : SnapFile :=
  some [("SNAPSHOT_ID", snapshot_id)]

/-- The scan of one fetched action list in wait_for_action_completion: the
for-loop sets the flag as soon as some entry has the awaited type and
status completed (src/domc.py lines 56-60). -/
def scanFound (action_type : String) (actions : List Action) : Bool :=
  actions.any fun a => a.type == action_type && a.status == "completed"

/-- wait_for_action_completion (src/domc.py lines 52-63) with the
provider's successive get_actions responses given by the oracle
get_actions (indexed by iteration, starting at i) and the unbounded while
loop bounded by fuel.  Each iteration fetches the action list, scans it,
and then sleeps; time.sleep(3) sits at the bottom of the while body, so it
runs on every iteration, including the one whose scan found the completed
action.  Returns the event trace, or none when fuel ran out before a
matching completed action was observed. -/
def wait_for_action_completion (get_actions : Nat → List Action)
    (action_type : String) (droplet_id : Nat) :
    Nat → Nat → Option (List Ev)
  | 0, _ => none
  | fuel+1, i =>
    let actions := get_actions i
    if scanFound action_type actions then
      some [Ev.fetchActions droplet_id action_type actions, Ev.sleep]
    else
      (wait_for_action_completion get_actions action_type droplet_id fuel (i+1)).map
        fun tr => Ev.fetchActions droplet_id action_type actions :: Ev.sleep :: tr

/-- Modelled from the claim wording (for comparison with the source): the
loop as the claim describes it stops immediately when the scan finds a
matching completed entry and sleeps only otherwise, before repeating. -/
def wait_for_action_completion_claimed (get_actions : Nat → List Action)
    (action_type : String) (droplet_id : Nat) :
    Nat → Nat → Option (List Ev)
  | 0, _ => none
  | fuel+1, i =>
    let actions := get_actions i
    if scanFound action_type actions then
      some [Ev.fetchActions droplet_id action_type actions]
    else
      (wait_for_action_completion_claimed get_actions action_type droplet_id fuel (i+1)).map
        fun tr => Ev.fetchActions droplet_id action_type actions :: Ev.sleep :: tr

/-- Offset (relative to start index i) of the first iteration whose fetched
action list contains a matching completed entry, searched up to fuel
iterations.  Specification device used to characterise the wait loop. -/
def firstMatchOff (get_actions : Nat → List Action) (action_type : String) :
    Nat → Nat → Option Nat
  | 0, _ => none
  | fuel+1, i =>
    if scanFound action_type (get_actions i) then some 0
    else (firstMatchOff get_actions action_type fuel (i+1)).map (· + 1)

/-- The event trace of k+1 iterations of the action wait starting at
iteration i: each iteration is a fetch followed by an unconditional
sleep. -/
def waitTraceSeg (get_actions : Nat → List Action) (action_type : String)
    (droplet_id : Nat) : Nat → Nat → List Ev
  | i, 0 => [Ev.fetchActions droplet_id action_type (get_actions i), Ev.sleep]
  | i, k+1 => Ev.fetchActions droplet_id action_type (get_actions i) :: Ev.sleep ::
      waitTraceSeg get_actions action_type droplet_id (i+1) k

/-- wait_for_volume_detachment (src/domc.py lines 65-73): each iteration
reloads the droplet (oracle get_vols gives the attached-volume list per
iteration) and breaks, before any sleep, as soon as the awaited volume id
is absent from that list; otherwise it sleeps and repeats. -/
def wait_for_volume_detachment (get_vols : Nat → List String)
    (droplet_id : Nat) (volume_id : String) :
    Nat → Nat → Option (List Ev)
  | 0, _ => none
  | fuel+1, i =>
    let vols := get_vols i
    if volume_id ∈ vols then
      (wait_for_volume_detachment get_vols droplet_id volume_id fuel (i+1)).map
        fun tr => Ev.pollDroplet droplet_id vols :: Ev.sleep :: tr
    else
      some [Ev.pollDroplet droplet_id vols]

/-- Offset of the first iteration whose reloaded attached-volume list does
not contain the awaited volume id.  Specification device for the
detachment wait. -/
def firstAbsentOff (get_vols : Nat → List String) (volume_id : String) :
    Nat → Nat → Option Nat
  | 0, _ => none
  | fuel+1, i =>
    if volume_id ∈ get_vols i then
      (firstAbsentOff get_vols volume_id fuel (i+1)).map (· + 1)
    else some 0

/-- The event trace of k+1 iterations of the detachment wait starting at
iteration i: a poll then a sleep for each continuing iteration, and a bare
final poll (the loop breaks before sleeping once the volume is absent). -/
def detachTraceSeg (get_vols : Nat → List String) (droplet_id : Nat) :
    Nat → Nat → List Ev
  | i, 0 => [Ev.pollDroplet droplet_id (get_vols i)]
  | i, k+1 => Ev.pollDroplet droplet_id (get_vols i) :: Ev.sleep ::
      detachTraceSeg get_vols droplet_id (i+1) k

/-- wait_for_action_completion under a provider whose get_actions (or the
per-action load) may itself raise: the exception escapes the loop at once.
Returns the trace together with none (completed) or some e (the loop
raised e).  Used by the create path, whose claims are about poll
failures. -/
def wait_for_action_completionF (fetch : Nat → Except Err (List Action))
    (action_type : String) (droplet_id : Nat) :
    Nat → Nat → Option (List Ev × Option Err)
  | 0, _ => none
  | fuel+1, i =>
    match fetch i with
    | Except.error e => some ([Ev.fetchActionsFail droplet_id action_type], some e)
    | Except.ok actions =>
      if scanFound action_type actions then
        some ([Ev.fetchActions droplet_id action_type actions, Ev.sleep], none)
      else
        (wait_for_action_completionF fetch action_type droplet_id fuel (i+1)).map
          fun p => (Ev.fetchActions droplet_id action_type actions :: Ev.sleep :: p.1, p.2)

/-- cleanup_droplet (src/domc.py lines 75-81): fetch the droplet and
destroy it, with any exception caught and logged.  get_result is the
outcome of manager.get_droplet (when it raises, no destroy call is made);
the outcome of droplet.destroy itself changes neither the trace of issued
calls nor anything downstream, since the except block only logs. -/
def cleanup_droplet (get_result : Except Err Unit)
    (destroy_result : Except Err Unit) (droplet_id : Option Nat) : List Ev :=
  Ev.getDropletCall droplet_id ::
    (match get_result, destroy_result with
     | Except.error _, _ => []
     | Except.ok _, _ => [Ev.destroyDroplet droplet_id])

/-- cleanup_volume (src/domc.py lines 83-89): fetch the volume and destroy
it, exceptions caught and logged.  Defined exactly like cleanup_droplet;
no operation of the script ever calls it. -/
def cleanup_volume (get_result : Except Err Unit)
    (destroy_result : Except Err Unit) (volume_id : String) : List Ev :=
  Ev.getVolume volume_id ::
    (match get_result, destroy_result with
     | Except.error _, _ => []
     | Except.ok _, _ => [Ev.destroyVolume volume_id])

/-- Provider outcomes consumed by create_droplet. -/
structure CreateOracle where
  /-- Outcome of manager.get_all_sshkeys() (the key list itself is passed
  through to droplet.create and never inspected). -/
  sshKeys : Except Err Unit
  /-- Outcome of droplet.create(): the droplet id assigned by the provider,
  or the exception raised (the SDK assigns the id only on success). -/
  createCall : Except Err Nat
  /-- get_actions responses (or exceptions) during the create wait. -/
  pollFetch : Nat → Except Err (List Action)
  /-- Outcome of manager.get_droplet inside cleanup_droplet. -/
  cleanupGet : Except Err Unit
  /-- Outcome of droplet.destroy inside cleanup_droplet. -/
  cleanupDestroy : Except Err Unit

/-- create_droplet (src/domc.py lines 101-129): fetch ssh keys, create the
droplet (attaching the given volume, image fedora-39-x64), then poll the
create action.  The try/finally issues cleanup_droplet whenever a droplet
object exists and creation_successful was never set; a keys failure leaves
droplet as None, a create failure leaves droplet.id as None, and a poll
failure cleans up under the assigned id.  The original exception is
re-raised; cleanup_droplet swallows its own. -/
def create_droplet (o : CreateOracle) (fuel : Nat) (volume_id : String) :
    Option (List Ev × Except Err Nat) :=
  match o.sshKeys with
  | Except.error e => some ([Ev.getSshKeys], Except.error e)
  | Except.ok _ =>
    match o.createCall with
    | Except.error e =>
      some ([Ev.getSshKeys, Ev.createDropletCall (Image.slug "fedora-39-x64") [volume_id]] ++
            cleanup_droplet o.cleanupGet o.cleanupDestroy none, Except.error e)
    | Except.ok droplet_id =>
      match wait_for_action_completionF o.pollFetch "create" droplet_id fuel 0 with
      | none => none
      | some (wtr, none) =>
        some ([Ev.getSshKeys, Ev.createDropletCall (Image.slug "fedora-39-x64") [volume_id]] ++ wtr,
              Except.ok droplet_id)
      | some (wtr, some e) =>
        some ([Ev.getSshKeys, Ev.createDropletCall (Image.slug "fedora-39-x64") [volume_id]] ++
              wtr ++ cleanup_droplet o.cleanupGet o.cleanupDestroy (some droplet_id),
              Except.error e)

/-- The trace of a create run whose poll raised: prefix of the successful
calls, the poll events, then the compensating cleanup for the assigned
id. -/
def createFailTrace (o : CreateOracle) (volume_id : String) (wtr : List Ev)
    (droplet_id : Nat) : List Ev :=
  [Ev.getSshKeys, Ev.createDropletCall (Image.slug "fedora-39-x64") [volume_id]] ++
    wtr ++ cleanup_droplet o.cleanupGet o.cleanupDestroy (some droplet_id)

/-- create_volume (src/domc.py lines 91-99): one volume.create() call; on
success the provider assigns the volume id, on failure the exception
propagates (no compensation exists for volumes). -/
def create_volume (create_result : Except Err String) (name : String) :
    List Ev × Except Err String :=
  ([Ev.createVolumeCall name], create_result)

/-- Provider outcomes consumed by shutdown_and_snapshot.  The destroy-path
claims are about step ordering and the persisted file, so this oracle
supplies responses of completed polls only; a provider exception would
abort the whole run earlier, issuing a prefix of the same trace. -/
structure DestroyOracle where
  /-- droplet.volume_ids observed after droplet.load(). -/
  volumeIds : List String
  /-- get_actions responses during the shutdown wait. -/
  shutActs : Nat → List Action
  /-- Attached-volume lists observed while waiting for each volume id. -/
  detachVols : String → Nat → List String
  /-- get_actions responses during the snapshot wait. -/
  snapActs : Nat → List Action
  /-- The account snapshot listing returned by manager.get_all_snapshots(). -/
  snapshots : List Snapshot
  /-- datetime.datetime.now().strftime of pattern YYYYMMDDHHMMSS at the
  moment the snapshot name is built; opaque input to the model. -/
  timestamp : String

/-- The deterministic snapshot name built at src/domc.py line 197. -/
def snapshot_name (droplet_id : Nat) (timestamp : String) : String :=
  "Snapshot-" ++ toString droplet_id ++ "-" ++ timestamp

/-- The second for-loop of the detach phase (src/domc.py lines 188-189):
one wait_for_volume_detachment per attached volume id, in order. -/
def detachWaits (o : DestroyOracle) (fuel droplet_id : Nat) :
    List String → Option (List Ev)
  | [] => some []
  | v :: vs =>
    match wait_for_volume_detachment (o.detachVols v) droplet_id v fuel 0 with
    | none => none
    | some tr =>
      match detachWaits o fuel droplet_id vs with
      | none => none
      | some rest => some (tr ++ rest)

/-- The detach phase of shutdown_and_snapshot (src/domc.py lines 179-189):
when the reloaded droplet has attached volumes, first issue every detach
call (get_volume + detach per volume), then run the detachment wait per
volume. -/
def detachPhase (o : DestroyOracle) (fuel droplet_id : Nat) : Option (List Ev) :=
  if o.volumeIds.isEmpty then some []
  else
    (detachWaits o fuel droplet_id o.volumeIds).map
      fun w => (o.volumeIds.flatMap fun v => [Ev.getVolume v, Ev.detachCall v droplet_id]) ++ w

/-- The snapshot branch of shutdown_and_snapshot (src/domc.py lines
194-219): take the snapshot under the deterministic name, poll the
snapshot action, list the account snapshots and take the first whose name
matches; on a match persist its id (overwriting the file), otherwise log
the absence and leave the file untouched. -/
def snapshotPhase (o : DestroyOracle) (fuel droplet_id : Nat) (file : SnapFile) :
    Option (List Ev × SnapFile) :=
  match wait_for_action_completion o.snapActs "snapshot" droplet_id fuel 0 with
  | none => none
  | some wtr =>
    match o.snapshots.find? (fun snap => snap.name == snapshot_name droplet_id o.timestamp) with
    | some snap =>
      some (Ev.takeSnapshot droplet_id (snapshot_name droplet_id o.timestamp) :: wtr ++
              [Ev.getAllSnapshots, Ev.writeSnapshotInfo snap.id],
            update_snapshot_info snap.id)
    | none =>
      some (Ev.takeSnapshot droplet_id (snapshot_name droplet_id o.timestamp) :: wtr ++
              [Ev.getAllSnapshots],
            file)

/-- shutdown_and_snapshot (src/domc.py lines 167-224): fetch the droplet,
issue shutdown, wait for the shutdown action, reload, detach and wait per
volume, optionally snapshot (see snapshotPhase), and unconditionally
destroy the droplet at the end.  Returns the trace and the resulting
snapshot_info.json contents. -/
def shutdown_and_snapshot (o : DestroyOracle) (fuel droplet_id : Nat)
    (skip_snapshot : Bool) (file : SnapFile) : Option (List Ev × SnapFile) :=
  match wait_for_action_completion o.shutActs "shutdown" droplet_id fuel 0 with
  | none => none
  | some shutTr =>
    match detachPhase o fuel droplet_id with
    | none => none
    | some detTr =>
      match (if skip_snapshot then some ([], file) else snapshotPhase o fuel droplet_id file) with
      | none => none
      | some sp =>
        some ((Ev.getDroplet droplet_id :: Ev.shutdownCall droplet_id :: shutTr) ++
                (Ev.loadDroplet droplet_id :: detTr) ++ sp.1 ++ [Ev.deleteDroplet droplet_id],
              sp.2)

/-- How restore_droplet_from_snapshot ended. -/
inductive RestoreOutcome where
  /-- The persisted record held no (truthy) snapshot id: reported, early
  return. -/
  | noSnapshotId
  /-- manager.get_image raised NotFoundError: reported, early return. -/
  | snapshotNotFound
  /-- A droplet was created from the snapshot and its create action
  completed. -/
  | restored
deriving DecidableEq, Repr

/-- Provider outcomes consumed by restore_droplet_from_snapshot. -/
structure RestoreOracle where
  /-- Whether manager.get_image(snapshot_id) succeeds (false models its
  NotFoundError). -/
  imageExists : Bool
  /-- The id the provider assigns to the restored droplet. -/
  newDropletId : Nat
  /-- get_actions responses during the create wait of the restore. -/
  createActs : Nat → List Action

/-- restore_droplet_from_snapshot (src/domc.py lines 131-165): read the
persisted snapshot id and return early (reported, non-fatal) when it is
falsy (missing key, missing file, or the Python-falsy id 0); verify the
snapshot exists (NotFoundError returns early); then create a droplet
booted from the snapshot with the configured volume attached and wait for
its create action. -/
def restore_droplet_from_snapshot (o : RestoreOracle) (fuel : Nat)
    (file : SnapFile) (volume_id : String) :
    Option (List Ev × RestoreOutcome) :=
  let snapshot_info := read_snapshot_info file
  match snapshot_info.lookup "SNAPSHOT_ID" with
  | none => some ([], RestoreOutcome.noSnapshotId)
  | some snapshot_id =>
    if snapshot_id = 0 then
      some ([], RestoreOutcome.noSnapshotId)
    else if o.imageExists then
      match wait_for_action_completion o.createActs "create" o.newDropletId fuel 0 with
      | none => none
      | some wtr =>
        some (Ev.getImage snapshot_id :: Ev.getSshKeys ::
                Ev.createDropletCall (Image.snapshot snapshot_id) [volume_id] :: wtr,
              RestoreOutcome.restored)
    else
      some ([Ev.getImage snapshot_id], RestoreOutcome.snapshotNotFound)

/-- get_api_token (src/domc.py lines 16-17): returns the raw environment
value of DO_API_TOKEN; absent yields None and no validation of any kind is
performed. -/
def get_api_token (env : String → Option String) : Option String :=
  env "DO_API_TOKEN"

/-- The state of config.json as the script finds it. -/
inductive ConfigSrc where
  /-- The file does not exist. -/
  | missing
  /-- The file exists but json.load raises. -/
  | malformed
  /-- The parsed JSON object. -/
  | parsed (kvs : List (String × String))
deriving DecidableEq, Repr

/-- read_config (src/domc.py lines 19-36): missing file raises
FileNotFoundError, malformed JSON re-raises the decode error, a parsed
object missing the VOLUME key raises ValueError; otherwise the dict is
returned. -/
def read_config : ConfigSrc → Except Err (List (String × String))
  | ConfigSrc.missing => Except.error Err.fileNotFound
  | ConfigSrc.malformed => Except.error Err.jsonDecode
  | ConfigSrc.parsed kvs =>
    if (kvs.lookup "VOLUME").isSome then Except.ok kvs
    else Except.error Err.valueError

/-- The digitalocean.Manager handle: the script stores the (unvalidated)
token in it and passes it to every operation; the token's only use is as
the auth header of the provider calls, whose outcomes are the oracles. -/
structure Manager where
  token : Option String
deriving DecidableEq, Repr

/-- How the process run ended (the top-level handler of src/domc.py lines
250-256 turns any uncaught exception into a logged non-zero exit). -/
inductive MainResult where
  /-- Usage printed, sys.exit(1). -/
  | exitUsage
  /-- Invalid command printed, sys.exit(1). -/
  | exitInvalid
  /-- An exception propagated to the top-level handler. -/
  | raised (e : Err)
  /-- The dispatched operation returned normally. -/
  | ok
deriving DecidableEq, Repr

/-- resultOf maps the outcome of the create path (whose exceptions
propagate out of main) to the process result. -/
def resultOf : Except Err Nat → MainResult
  | Except.ok _ => MainResult.ok
  | Except.error e => MainResult.raised e

/-- The create branch of main (src/domc.py lines 237-239): provision the
fixed volume, then create_droplet attached to it.  A volume.create failure
propagates directly; nothing ever deletes the volume. -/
def main_create (vc : Except Err String) (o : CreateOracle) (fuel : Nat) :
    Option (List Ev × Except Err Nat) :=
  match create_volume vc "examplevolume2" with
  | (vtr, Except.error e) => some (vtr, Except.error e)
  | (vtr, Except.ok volume_id) =>
    match create_droplet o fuel volume_id with
    | none => none
    | some p => some (vtr ++ p.1, p.2)

/-- Python str.lower() as used on sys.argv[1]: character-wise lowering of
the string (the command strings are ASCII, where this agrees with
str.lower). -/
def lowerStr (s : String) : String := ⟨s.data.map Char.toLower⟩

/-- Command dispatch of main (src/domc.py lines 231-248), after config and
manager setup: fewer than two argv entries prints usage; otherwise the
lowered second entry selects create, destroy (with droplet id read from
input and skip flag from a -s argument), or restore (with the configured
volume); anything else is invalid. -/
def dispatch (config : List (String × String)) (argv : List String)
    (vc : Except Err String) (co : CreateOracle) (dro : DestroyOracle)
    (droplet_input : Nat) (ro : RestoreOracle) (file : SnapFile) (fuel : Nat) :
    Option (List Ev × SnapFile × MainResult) :=
  match argv with
  | _ :: cmdArg :: _ =>
    let command := lowerStr cmdArg
    if command = "create" then
      (main_create vc co fuel).map fun p => (p.1, file, resultOf p.2)
    else if command = "destroy" then
      (shutdown_and_snapshot dro fuel droplet_input (argv.contains "-s") file).map
        fun p => (p.1, p.2, MainResult.ok)
    else if command = "restore" then
      match config.lookup "VOLUME" with
      | some vol =>
        (restore_droplet_from_snapshot ro fuel file vol).map
          fun p => (p.1, file, MainResult.ok)
      | none => some ([], file, MainResult.raised Err.valueError)
    else some ([], file, MainResult.exitInvalid)
  | _ => some ([], file, MainResult.exitUsage)

/-- Result of a whole process run. -/
inductive MainOut where
  /-- read_config raised before the manager was even constructed: no
  provider call was issued. -/
  | configError (e : Err)
  /-- The manager (holding the raw token) was built and the run proceeded,
  producing the given trace, final snapshot file and result. -/
  | ran (manager : Manager) (trace : List Ev) (file : SnapFile) (result : MainResult)
deriving DecidableEq, Repr

/-- main (src/domc.py lines 226-248): read_config first (its exceptions
abort the run before any provider call), then read the token from the
environment, build the Manager from it with no validation whatsoever, and
dispatch on the command line. -/
def main (cfg : ConfigSrc) (env : String → Option String) (argv : List String)
    (vc : Except Err String) (co : CreateOracle) (dro : DestroyOracle)
    (droplet_input : Nat) (ro : RestoreOracle) (file : SnapFile) (fuel : Nat) :
    Option MainOut :=
  match read_config cfg with
  | Except.error e => some (MainOut.configError e)
  | Except.ok config =>
    let manager : Manager := ⟨get_api_token env⟩
    (dispatch config argv vc co dro droplet_input ro file fuel).map
      fun p => MainOut.ran manager p.1 p.2.1 p.2.2

/-- Erase the manager from a run result, leaving only the observable
behaviour (trace, persisted file, process result). -/
def stripManager : MainOut → MainOut
  | MainOut.configError e => MainOut.configError e
  | MainOut.ran _ tr f r => MainOut.ran ⟨none⟩ tr f r

/-! Concrete oracles used to exercise the theorems on closed inputs. -/

/-- A provider whose every get_actions fetch already shows the completed
create action. -/
def actsAlwaysDone : Nat → List Action := fun _ => [⟨"create", "completed"⟩]

/-- A provider whose first fetch shows no actions and whose later fetches
show the completed create action. -/
def actsDoneAtOne : Nat → List Action :=
  fun i => if i = 0 then [] else [⟨"create", "completed"⟩]

/-- Reloads on which the awaited volume vol-a is the only volume still
attached, forever. -/
def volsStuck : Nat → List String := fun _ => ["vol-a"]

/-- Reloads on which vol-a disappears at iteration 1 while a different
volume is still attached. -/
def volsGoneAtOne : Nat → List String :=
  fun i => if i = 0 then ["other", "vol-a"] else ["other2"]

/-! Ordering predicates over destroy traces. -/

/-- An event on which the shutdown wait observed the completed shutdown
action: a get_actions fetch whose scanned list contains a completed
shutdown entry. -/
def isShutObs (droplet_id : Nat) (e : Ev) : Prop :=
  ∃ acts, e = Ev.fetchActions droplet_id "shutdown" acts ∧
    scanFound "shutdown" acts = true

/-- An event belonging to the snapshot step of a destroy run: the
take_snapshot call, a fetch of the snapshot-action wait, the snapshot
listing, or the persisted-record write. -/
def isSnapStep (droplet_id : Nat) (e : Ev) : Prop :=
  (∃ n, e = Ev.takeSnapshot droplet_id n) ∨
  (∃ acts, e = Ev.fetchActions droplet_id "snapshot" acts) ∨
  e = Ev.getAllSnapshots ∨ (∃ s, e = Ev.writeSnapshotInfo s)

/-- A reload performed by a volume-detachment wait. -/
def isDetachPoll (droplet_id : Nat) (e : Ev) : Prop :=
  ∃ vols, e = Ev.pollDroplet droplet_id vols

/-- The lifecycle ordering the destroy sequence must respect: every
snapshot-step event and every detachment poll comes strictly after some
fetch that observed the completed shutdown action, and the deletion call
comes strictly after every detachment poll and snapshot-step event, with
each attached volume confirmed absent by some earlier poll. -/
def destroyOrdered (droplet_id : Nat) (vols : List String) (tr : List Ev) : Prop :=
  (∀ i, ∀ hi : i < tr.length, isSnapStep droplet_id (tr.get ⟨i, hi⟩) →
    ∃ j, ∃ hj : j < tr.length, j < i ∧ isShutObs droplet_id (tr.get ⟨j, hj⟩)) ∧
  (∀ i, ∀ hi : i < tr.length, isDetachPoll droplet_id (tr.get ⟨i, hi⟩) →
    ∃ j, ∃ hj : j < tr.length, j < i ∧ isShutObs droplet_id (tr.get ⟨j, hj⟩)) ∧
  (∀ i, ∀ hi : i < tr.length, tr.get ⟨i, hi⟩ = Ev.deleteDroplet droplet_id →
    (∀ j, ∀ hj : j < tr.length,
      (isDetachPoll droplet_id (tr.get ⟨j, hj⟩) ∨ isSnapStep droplet_id (tr.get ⟨j, hj⟩)) →
      j < i) ∧
    (∀ v, v ∈ vols → ∃ j, ∃ hj : j < tr.length, j < i ∧
      ∃ w, tr.get ⟨j, hj⟩ = Ev.pollDroplet droplet_id w ∧ v ∉ w))

/-! Concrete runs used by the per-claim closed theorems. -/

/-- Destroy-path oracle for the ordering witness: one attached volume,
every wait completing on its first iteration, and a snapshot listing
containing the deterministic name. -/
def oD1 : DestroyOracle :=
  ⟨["vol-a"], fun _ => [⟨"shutdown", "completed"⟩], fun _ _ => [],
   fun _ => [⟨"snapshot", "completed"⟩],
   [⟨"Snapshot-7-20240101000000", 42⟩], "20240101000000"⟩

/-- The concrete destroy run of oD1 (droplet 7, snapshot not skipped). -/
def runD1 : Option (List Ev × SnapFile) :=
  shutdown_and_snapshot oD1 1 7 false (some [("SNAPSHOT_ID", 1)])

/-- Trace of runD1. -/
def trD1 : List Ev := (runD1.getD ([], none)).1

/-- Final snapshot file of runD1. -/
def fileD1 : SnapFile := (runD1.getD ([], none)).2

/-- Destroy-path oracle for the skip-snapshot witness. -/
def oD6 : DestroyOracle :=
  ⟨["vol-b"], fun _ => [⟨"shutdown", "completed"⟩], fun _ _ => [],
   fun _ => [], [], "20240202000000"⟩

/-- Concrete destroy run with skip_snapshot set. -/
def runD6 : Option (List Ev × SnapFile) :=
  shutdown_and_snapshot oD6 1 3 true (some [("SNAPSHOT_ID", 5)])

/-- Trace of runD6. -/
def trD6 : List Ev := (runD6.getD ([], none)).1

/-- Destroy-path oracle for the snapshot-resolution witness. -/
def oD9 : DestroyOracle :=
  ⟨[], fun _ => [⟨"shutdown", "completed"⟩], fun _ _ => [],
   fun _ => [⟨"snapshot", "completed"⟩],
   [⟨"Snapshot-4-20250101120000", 88⟩], "20250101120000"⟩

/-- Concrete destroy run of oD9 (droplet 4, snapshot taken). -/
def runD9 : Option (List Ev × SnapFile) :=
  shutdown_and_snapshot oD9 1 4 false none

/-- Trace of runD9. -/
def trD9 : List Ev := (runD9.getD ([], none)).1

/-- Final snapshot file of runD9. -/
def fileD9 : SnapFile := (runD9.getD ([], none)).2

/-- Destroy-path oracle whose snapshot listing resolves the deterministic
name to the snapshot id 0 (IDs are opaque provider values; the script
never checks them). -/
def oD5 : DestroyOracle :=
  ⟨[], fun _ => [⟨"shutdown", "completed"⟩], fun _ _ => [],
   fun _ => [⟨"snapshot", "completed"⟩],
   [⟨"Snapshot-7-20240101000000", 0⟩], "20240101000000"⟩

/-- Concrete destroy run of oD5 writing snapshot id 0. -/
def runD5 : Option (List Ev × SnapFile) :=
  shutdown_and_snapshot oD5 1 7 false none

/-- Destroy-path oracle like oD5 but resolving to the nonzero id 42. -/
def oD5w : DestroyOracle :=
  ⟨[], fun _ => [⟨"shutdown", "completed"⟩], fun _ _ => [],
   fun _ => [⟨"snapshot", "completed"⟩],
   [⟨"Snapshot-7-20240101000000", 42⟩], "20240101000000"⟩

/-- Concrete destroy run of oD5w writing snapshot id 42. -/
def runD5w : Option (List Ev × SnapFile) :=
  shutdown_and_snapshot oD5w 1 7 false none

/-- Trace of runD5w. -/
def trD5w : List Ev := (runD5w.getD ([], none)).1

/-- Final snapshot file of runD5w. -/
def fileD5w : SnapFile := (runD5w.getD ([], none)).2

/-- Restore-path oracle for the round-trip witness: the snapshot exists
and the create action completes at once. -/
def ro5 : RestoreOracle := ⟨true, 9, fun _ => [⟨"create", "completed"⟩]⟩

/-- Concrete restore run on the file written by runD5w. -/
def runR5 : Option (List Ev × RestoreOutcome) :=
  restore_droplet_from_snapshot ro5 1 fileD5w "vol-cfg"

/-- Trace of runR5. -/
def trR5 : List Ev := (runR5.getD ([], RestoreOutcome.noSnapshotId)).1

/-- Restore-path oracle for the no-record witness (its fields are never
reached). -/
def ro7 : RestoreOracle := ⟨false, 0, fun _ => []⟩

/-- Restore-path oracle on which the snapshot would exist and the create
action would complete, were the stored id usable. -/
def ro5c : RestoreOracle := ⟨true, 9, fun _ => [⟨"create", "completed"⟩]⟩

/-- Trace of runD5. -/
def trD5 : List Ev := (runD5.getD ([], none)).1

/-- Create-path oracle for the compensating-cleanup witness: keys and
create succeed assigning droplet id 5, the first poll fetch raises, the
cleanup's get succeeds and its destroy itself fails. -/
def oC3 : CreateOracle :=
  ⟨Except.ok (), Except.ok 5, fun _ => Except.error (Err.providerErr "boom"),
   Except.ok (), Except.error (Err.providerErr "cleanup failed")⟩

/-- An environment with no DO_API_TOKEN at all. -/
def env4 : String → Option String := fun _ => none

/-- An environment with an empty DO_API_TOKEN. -/
def env4e : String → Option String := fun _ => some ""

/-- A well-formed config.json containing the VOLUME key. -/
def cfg4 : ConfigSrc := ConfigSrc.parsed [("VOLUME", "vol-7")]

/-- A successful volume.create outcome. -/
def vc4 : Except Err String := Except.ok "vol-123"

/-- A create-path oracle on which every call succeeds and the create
action completes on the first poll. -/
def co4 : CreateOracle :=
  ⟨Except.ok (), Except.ok 5, fun _ => Except.ok [⟨"create", "completed"⟩],
   Except.ok (), Except.ok ()⟩

/-- A destroy-path oracle never reached by the create-command runs. -/
def droD : DestroyOracle := ⟨[], fun _ => [], fun _ _ => [], fun _ => [], [], ""⟩

/-- A restore-path oracle never reached by the create-command runs. -/
def roD : RestoreOracle := ⟨false, 0, fun _ => []⟩

/-- A full process run: valid config, absent credential, create command. -/
def runM4 : Option MainOut :=
  main cfg4 env4 ["script.py", "create"] vc4 co4 droD 0 roD none 1

/-- A full process run with an empty-string credential. -/
def runM4e : Option MainOut :=
  main cfg4 env4e ["script.py", "create"] vc4 co4 droD 0 roD none 1

/-- Volume-creation outcome for the leftover-volume witness. -/
def vc10 : Except Err String := Except.ok "vol-9"

/-- Create-path oracle for the leftover-volume witness: droplet creation
succeeds but its create-action poll raises, triggering the droplet (and
only the droplet) cleanup. -/
def co10 : CreateOracle :=
  ⟨Except.ok (), Except.ok 6, fun _ => Except.error (Err.providerErr "boom"),
   Except.ok (), Except.ok ()⟩

/-- Concrete create-command run for the leftover-volume witness. -/
def runMC10 : Option (List Ev × Except Err Nat) := main_create vc10 co10 1

/-- Trace of runMC10. -/
def trMC10 : List Ev := (runMC10.getD ([], Except.ok 0)).1

/-- Destroy oracle for the leftover-volume witness (skip path, no
volumes). -/
def oD10 : DestroyOracle :=
  ⟨[], fun _ => [⟨"shutdown", "completed"⟩], fun _ _ => [], fun _ => [], [], ""⟩

/-- Concrete destroy run for the leftover-volume witness. -/
def runD10 : Option (List Ev × SnapFile) :=
  shutdown_and_snapshot oD10 1 2 true none

/-- Trace of runD10. -/
def trD10 : List Ev := (runD10.getD ([], none)).1

/-- Restore oracle for the leftover-volume witness. -/
def ro10 : RestoreOracle := ⟨false, 0, fun _ => []⟩

/-- Concrete restore run for the leftover-volume witness (no record). -/
def runR10 : Option (List Ev × RestoreOutcome) :=
  restore_droplet_from_snapshot ro10 1 none "vol-9"

/-- Trace of runR10. -/
def trR10 : List Ev := (runR10.getD ([], RestoreOutcome.noSnapshotId)).1

/-! Characterisation of the two polling loops. -/

theorem wait_eq_firstMatch (get_actions : Nat → List Action) (action_type : String)
    (droplet_id : Nat) (fuel : Nat) : ∀ i : Nat,
    wait_for_action_completion get_actions action_type droplet_id fuel i =
      (firstMatchOff get_actions action_type fuel i).map
        (waitTraceSeg get_actions action_type droplet_id i) := by
  induction fuel with
  | zero => intro i; rfl
  | succ n ih =>
    intro i
    simp only [wait_for_action_completion, firstMatchOff]
    by_cases h : scanFound action_type (get_actions i) = true
    · simp [h, waitTraceSeg]
    · simp only [h, if_false, Bool.false_eq_true, if_neg, ih (i+1), Option.map_map]
      rfl

theorem firstMatchOff_none_iff (get_actions : Nat → List Action)
    (action_type : String) (fuel : Nat) : ∀ i : Nat,
    (firstMatchOff get_actions action_type fuel i = none ↔
      ∀ j, j < fuel → scanFound action_type (get_actions (i + j)) = false) := by
  induction fuel with
  | zero => intro i; simp [firstMatchOff]
  | succ n ih =>
    intro i
    simp only [firstMatchOff]
    by_cases h : scanFound action_type (get_actions i) = true
    · simp only [if_pos h]
      constructor
      · intro hc; cases hc
      · intro hall
        have h0 := hall 0 (Nat.succ_pos n)
        rw [Nat.add_zero] at h0
        rw [h0] at h
        cases h
    · rw [if_neg h]
      rw [Bool.not_eq_true] at h
      constructor
      · intro hm j hj
        cases j with
        | zero => rw [Nat.add_zero]; exact h
        | succ j0 =>
          have hm2 : firstMatchOff get_actions action_type n (i + 1) = none := by
            cases hx : firstMatchOff get_actions action_type n (i + 1) with
            | none => rfl
            | some k => rw [hx] at hm; cases hm
          have : i + (j0 + 1) = (i + 1) + j0 := by omega
          rw [this]
          exact (ih (i + 1)).mp hm2 j0 (by omega)
      · intro hall
        have hm2 : firstMatchOff get_actions action_type n (i + 1) = none := by
          refine (ih (i + 1)).mpr ?_
          intro j hj
          have : (i + 1) + j = i + (j + 1) := by omega
          rw [this]
          exact hall (j + 1) (by omega)
        rw [hm2]
        rfl

theorem firstMatchOff_some_spec (get_actions : Nat → List Action)
    (action_type : String) (fuel : Nat) : ∀ i k : Nat,
    firstMatchOff get_actions action_type fuel i = some k →
      scanFound action_type (get_actions (i + k)) = true ∧
      ∀ j, j < k → scanFound action_type (get_actions (i + j)) = false := by
  induction fuel with
  | zero => intro i k h; cases h
  | succ n ih =>
    intro i k h
    simp only [firstMatchOff] at h
    by_cases hs : scanFound action_type (get_actions i) = true
    · rw [if_pos hs] at h
      have hk : k = 0 := by cases h; rfl
      subst hk
      exact ⟨by rwa [Nat.add_zero], fun j hj => absurd hj (Nat.not_lt_zero j)⟩
    · rw [if_neg hs] at h
      rw [Bool.not_eq_true] at hs
      cases hm : firstMatchOff get_actions action_type n (i + 1) with
      | none => rw [hm] at h; cases h
      | some k0 =>
        rw [hm] at h
        have hk : k = k0 + 1 := by cases h; rfl
        subst hk
        obtain ⟨hsc, hall⟩ := ih (i + 1) k0 hm
        constructor
        · have : i + (k0 + 1) = (i + 1) + k0 := by omega
          rw [this]; exact hsc
        · intro j hj
          cases j with
          | zero => rw [Nat.add_zero]; exact hs
          | succ j0 =>
            have : i + (j0 + 1) = (i + 1) + j0 := by omega
            rw [this]
            exact hall j0 (by omega)

theorem detach_eq_firstAbsent (get_vols : Nat → List String) (droplet_id : Nat)
    (volume_id : String) (fuel : Nat) : ∀ i : Nat,
    wait_for_volume_detachment get_vols droplet_id volume_id fuel i =
      (firstAbsentOff get_vols volume_id fuel i).map
        (detachTraceSeg get_vols droplet_id i) := by
  induction fuel with
  | zero => intro i; rfl
  | succ n ih =>
    intro i
    simp only [wait_for_volume_detachment, firstAbsentOff]
    by_cases h : volume_id ∈ get_vols i
    · simp only [if_pos h, ih (i + 1), Option.map_map]
      rfl
    · simp [h, detachTraceSeg]

theorem firstAbsentOff_none_iff (get_vols : Nat → List String)
    (volume_id : String) (fuel : Nat) : ∀ i : Nat,
    (firstAbsentOff get_vols volume_id fuel i = none ↔
      ∀ j, j < fuel → volume_id ∈ get_vols (i + j)) := by
  induction fuel with
  | zero => intro i; simp [firstAbsentOff]
  | succ n ih =>
    intro i
    simp only [firstAbsentOff]
    by_cases h : volume_id ∈ get_vols i
    · rw [if_pos h]
      constructor
      · intro hm j hj
        cases j with
        | zero => rw [Nat.add_zero]; exact h
        | succ j0 =>
          have hm2 : firstAbsentOff get_vols volume_id n (i + 1) = none := by
            cases hx : firstAbsentOff get_vols volume_id n (i + 1) with
            | none => rfl
            | some k => rw [hx] at hm; cases hm
          have : i + (j0 + 1) = (i + 1) + j0 := by omega
          rw [this]
          exact (ih (i + 1)).mp hm2 j0 (by omega)
      · intro hall
        have hm2 : firstAbsentOff get_vols volume_id n (i + 1) = none := by
          refine (ih (i + 1)).mpr ?_
          intro j hj
          have : (i + 1) + j = i + (j + 1) := by omega
          rw [this]
          exact hall (j + 1) (by omega)
        rw [hm2]
        rfl
    · rw [if_neg h]
      constructor
      · intro hc; cases hc
      · intro hall
        have h0 := hall 0 (Nat.succ_pos n)
        rw [Nat.add_zero] at h0
        exact absurd h0 h

theorem firstAbsentOff_some_spec (get_vols : Nat → List String)
    (volume_id : String) (fuel : Nat) : ∀ i k : Nat,
    firstAbsentOff get_vols volume_id fuel i = some k →
      volume_id ∉ get_vols (i + k) ∧
      ∀ j, j < k → volume_id ∈ get_vols (i + j) := by
  induction fuel with
  | zero => intro i k h; cases h
  | succ n ih =>
    intro i k h
    simp only [firstAbsentOff] at h
    by_cases hs : volume_id ∈ get_vols i
    · rw [if_pos hs] at h
      cases hm : firstAbsentOff get_vols volume_id n (i + 1) with
      | none => rw [hm] at h; cases h
      | some k0 =>
        rw [hm] at h
        have hk : k = k0 + 1 := by cases h; rfl
        subst hk
        obtain ⟨habs, hall⟩ := ih (i + 1) k0 hm
        constructor
        · have : i + (k0 + 1) = (i + 1) + k0 := by omega
          rw [this]; exact habs
        · intro j hj
          cases j with
          | zero => rw [Nat.add_zero]; exact hs
          | succ j0 =>
            have : i + (j0 + 1) = (i + 1) + j0 := by omega
            rw [this]
            exact hall j0 (by omega)
    · rw [if_neg hs] at h
      have hk : k = 0 := by cases h; rfl
      subst hk
      exact ⟨by rwa [Nat.add_zero], fun j hj => absurd hj (Nat.not_lt_zero j)⟩

/-- C2 (counterexample): the claim says the loop stops as soon as the scan
finds a matching completed entry and that only otherwise does it sleep.
On a provider whose very first fetch shows the completed action, the
claimed loop would return after a bare fetch, but the source's
time.sleep(3) sits unconditionally at the bottom of the while body, so the
actual trace still ends in a sleep. -/
theorem C2_counterexample :
    wait_for_action_completion actsAlwaysDone "create" 9 1 0 =
      some [Ev.fetchActions 9 "create" [⟨"create", "completed"⟩], Ev.sleep] ∧
    wait_for_action_completion_claimed actsAlwaysDone "create" 9 1 0 =
      some [Ev.fetchActions 9 "create" [⟨"create", "completed"⟩]] ∧
    wait_for_action_completion actsAlwaysDone "create" 9 1 0 ≠
      wait_for_action_completion_claimed actsAlwaysDone "create" 9 1 0 := by
  refine ⟨rfl, rfl, ?_⟩
  decide

/-- C2 (amended): on every iteration the wait loop fetches the action
list, scans it for an entry of the awaited type with status completed, and
then sleeps a fixed interval unconditionally (also on the iteration whose
scan succeeded); it stops right after that final sleep at the first
iteration whose fetch contained a matching completed entry, and with no
timeout or retry bound it never returns while no fetched list contains
one (firstMatchOff = none for every fuel bound means the loop is still
spinning). -/
theorem C2_wait_loop_characterisation (get_actions : Nat → List Action)
    (action_type : String) (droplet_id fuel : Nat) :
    wait_for_action_completion get_actions action_type droplet_id fuel 0 =
      (firstMatchOff get_actions action_type fuel 0).map
        (waitTraceSeg get_actions action_type droplet_id 0) ∧
    (firstMatchOff get_actions action_type fuel 0 = none ↔
      ∀ j, j < fuel → scanFound action_type (get_actions j) = false) ∧
    (∀ k, firstMatchOff get_actions action_type fuel 0 = some k →
      scanFound action_type (get_actions k) = true ∧
      ∀ j, j < k → scanFound action_type (get_actions j) = false) := by
  refine ⟨wait_eq_firstMatch get_actions action_type droplet_id fuel 0, ?_, ?_⟩
  · have h := firstMatchOff_none_iff get_actions action_type fuel 0
    simpa using h
  · intro k hk
    have h := firstMatchOff_some_spec get_actions action_type fuel 0 k hk
    simpa using h

/-- C2 (witness): a provider completing at iteration 1 makes the loop
return the two-iteration trace, with no completed action at iteration 0. -/
theorem C2_witness :
    wait_for_action_completion actsDoneAtOne "create" 3 2 0 =
      some (waitTraceSeg actsDoneAtOne "create" 3 0 1) ∧
    scanFound "create" (actsDoneAtOne 1) = true ∧
    scanFound "create" (actsDoneAtOne 0) = false := by
  have h := C2_wait_loop_characterisation actsDoneAtOne "create" 3 2
  refine ⟨h.1, (h.2.2 1 (by decide)).1, (h.2.2 1 (by decide)).2 0 (by decide)⟩

/-- C8: the detach-confirmation poll terminates exactly at the first
reload on which the awaited volume id is absent from the attached-volume
list — its trace is one poll per reload up to and including that first
absence — and never before: as long as every reload within the fuel bound
still lists the volume (whatever else those lists contain), the loop is
still spinning (none). -/
theorem C8_detach_wait_characterisation (get_vols : Nat → List String)
    (droplet_id : Nat) (volume_id : String) (fuel : Nat) :
    wait_for_volume_detachment get_vols droplet_id volume_id fuel 0 =
      (firstAbsentOff get_vols volume_id fuel 0).map
        (detachTraceSeg get_vols droplet_id 0) ∧
    (firstAbsentOff get_vols volume_id fuel 0 = none ↔
      ∀ j, j < fuel → volume_id ∈ get_vols j) ∧
    (∀ k, firstAbsentOff get_vols volume_id fuel 0 = some k →
      volume_id ∉ get_vols k ∧
      ∀ j, j < k → volume_id ∈ get_vols j) := by
  refine ⟨detach_eq_firstAbsent get_vols droplet_id volume_id fuel 0, ?_, ?_⟩
  · have h := firstAbsentOff_none_iff get_vols volume_id fuel 0
    simpa using h
  · intro k hk
    have h := firstAbsentOff_some_spec get_vols volume_id fuel 0 k hk
    simpa using h

/-- C8 (witness): with vol-a the only volume still attached on every
reload the poll never returns, and with vol-a gone at reload 1 (while a
different volume is still attached) the poll stops exactly there. -/
theorem C8_witness :
    wait_for_volume_detachment volsStuck 7 "vol-a" 5 0 = none ∧
    wait_for_volume_detachment volsGoneAtOne 7 "vol-a" 5 0 =
      some (detachTraceSeg volsGoneAtOne 7 0 1) ∧
    "vol-a" ∉ volsGoneAtOne 1 ∧ "vol-a" ∈ volsGoneAtOne 0 := by
  have h1 := C8_detach_wait_characterisation volsStuck 7 "vol-a" 5
  have h2 := C8_detach_wait_characterisation volsGoneAtOne 7 "vol-a" 5
  refine ⟨?_, h2.1, (h2.2.2 1 (by decide)).1, ?_⟩
  · rw [h1.1]
    rfl
  · have := (h2.2.2 1 (by decide)).2 0 (by decide)
    exact this

/-! Generic positioning lemmas over traces. -/

theorem exists_get_of_mem {α : Type} {l : List α} {a : α} (h : a ∈ l) :
    ∃ j, ∃ hj : j < l.length, l.get ⟨j, hj⟩ = a := by
  obtain ⟨n, hn⟩ := List.mem_iff_get.mp h
  exact ⟨n.1, n.2, hn⟩

theorem get_append_of_lt {α : Type} (p s : List α) (j : Nat) (hj : j < p.length)
    (hj2 : j < (p ++ s).length) : (p ++ s).get ⟨j, hj2⟩ = p.get ⟨j, hj⟩ := by
  simp [List.get_eq_getElem, List.getElem_append_left hj]

theorem get_mem_left_part {α : Type} (p s : List α) (i : Nat) (hi : i < (p ++ s).length)
    (hlt : i < p.length) : (p ++ s).get ⟨i, hi⟩ ∈ p := by
  rw [get_append_of_lt p s i hlt hi]
  exact List.get_mem p i hlt

theorem get_mem_suffix {α : Type} (p s : List α) (i : Nat) (hi : i < (p ++ s).length)
    (hge : p.length ≤ i) : (p ++ s).get ⟨i, hi⟩ ∈ s := by
  have hlen : i - p.length < s.length := by
    rw [List.length_append] at hi
    omega
  have : (p ++ s).get ⟨i, hi⟩ = s.get ⟨i - p.length, hlen⟩ := by
    simp [List.get_eq_getElem, List.getElem_append_right hge]
  rw [this]
  exact List.get_mem s (i - p.length) hlen

/-- If no event of the prefix satisfies D, any position satisfying D lies
at or beyond the prefix length. -/
theorem prefix_length_le_of_get {α : Type} (D : α → Prop) (p s : List α)
    (hp : ∀ e ∈ p, ¬ D e) :
    ∀ i, ∀ hi : i < (p ++ s).length, D ((p ++ s).get ⟨i, hi⟩) → p.length ≤ i := by
  intro i hi hD
  by_contra hlt
  push_neg at hlt
  exact hp _ (get_mem_left_part p s i hi hlt) hD

/-- If no event of the suffix satisfies Q, any position satisfying Q lies
inside the prefix. -/
theorem lt_prefix_length_of_get {α : Type} (Q : α → Prop) (p s : List α)
    (hs : ∀ e ∈ s, ¬ Q e) :
    ∀ j, ∀ hj : j < (p ++ s).length, Q ((p ++ s).get ⟨j, hj⟩) → j < p.length := by
  intro j hj hQ
  by_contra hge
  push_neg at hge
  exact hs _ (get_mem_suffix p s j hj hge) hQ

/-- When some event of the prefix satisfies P and no event of the prefix
satisfies Q, every Q-position is strictly preceded by a P-position. -/
theorem precedes_of_split {α : Type} (P Q : α → Prop) (p s : List α)
    (hp : ∃ e ∈ p, P e) (hq : ∀ e ∈ p, ¬ Q e) :
    ∀ i, ∀ hi : i < (p ++ s).length, Q ((p ++ s).get ⟨i, hi⟩) →
      ∃ j, ∃ hj : j < (p ++ s).length, j < i ∧ P ((p ++ s).get ⟨j, hj⟩) := by
  intro i hi hQ
  obtain ⟨e, he, hPe⟩ := hp
  obtain ⟨j, hj, hje⟩ := exists_get_of_mem he
  have hpi : p.length ≤ i := prefix_length_le_of_get Q p s hq i hi hQ
  have hjlen : j < (p ++ s).length := by
    rw [List.length_append]
    omega
  refine ⟨j, hjlen, by omega, ?_⟩
  rw [get_append_of_lt p s j hj hjlen, hje]
  exact hPe

/-- A member of the prefix occurs at some position before every position
at or beyond the prefix length. -/
theorem mem_prefix_get {α : Type} (p s : List α) {e : α} (he : e ∈ p) :
    ∃ j, ∃ hj : j < (p ++ s).length, j < p.length ∧ (p ++ s).get ⟨j, hj⟩ = e := by
  obtain ⟨j, hj, hje⟩ := exists_get_of_mem he
  have hjlen : j < (p ++ s).length := by
    rw [List.length_append]
    omega
  exact ⟨j, hjlen, hj, by rw [get_append_of_lt p s j hj hjlen, hje]⟩

/-! Shapes of the traces produced by each phase. -/

theorem wait_shape (get_actions : Nat → List Action) (action_type : String)
    (droplet_id : Nat) : ∀ (fuel i : Nat) (tr : List Ev),
    wait_for_action_completion get_actions action_type droplet_id fuel i = some tr →
    (∀ e ∈ tr, (∃ a, e = Ev.fetchActions droplet_id action_type a) ∨ e = Ev.sleep) ∧
    ∃ a, scanFound action_type a = true ∧ Ev.fetchActions droplet_id action_type a ∈ tr := by
  intro fuel
  induction fuel with
  | zero => intro i tr h; cases h
  | succ n ih =>
    intro i tr h
    simp only [wait_for_action_completion] at h
    by_cases hs : scanFound action_type (get_actions i) = true
    · rw [if_pos hs] at h
      cases h
      constructor
      · intro e he
        simp only [List.mem_cons, List.mem_singleton] at he
        rcases he with h1 | h1 | h1
        · exact Or.inl ⟨get_actions i, h1⟩
        · exact Or.inr h1
        · cases h1
      · exact ⟨get_actions i, hs, by simp⟩
    · rw [if_neg hs] at h
      cases hw : wait_for_action_completion get_actions action_type droplet_id n (i + 1) with
      | none => rw [hw] at h; cases h
      | some tr0 =>
        rw [hw] at h
        simp only [Option.map_some'] at h
        cases h
        obtain ⟨hshape, a, ha, hamem⟩ := ih (i + 1) tr0 hw
        constructor
        · intro e he
          simp only [List.mem_cons] at he
          rcases he with h1 | h1 | h1
          · exact Or.inl ⟨get_actions i, h1⟩
          · exact Or.inr h1
          · exact hshape e h1
        · exact ⟨a, ha, by simp [hamem]⟩

theorem waitF_shape (fetch : Nat → Except Err (List Action)) (action_type : String)
    (droplet_id : Nat) : ∀ (fuel i : Nat) (p : List Ev × Option Err),
    wait_for_action_completionF fetch action_type droplet_id fuel i = some p →
    ∀ e ∈ p.1, (∃ a, e = Ev.fetchActions droplet_id action_type a) ∨
      e = Ev.fetchActionsFail droplet_id action_type ∨ e = Ev.sleep := by
  intro fuel
  induction fuel with
  | zero => intro i p h; cases h
  | succ n ih =>
    intro i p h
    cases hf : fetch i with
    | error e0 =>
      simp only [wait_for_action_completionF, hf] at h
      cases h
      intro e he
      simp only [List.mem_singleton] at he
      exact Or.inr (Or.inl he)
    | ok actions =>
      simp only [wait_for_action_completionF, hf] at h
      by_cases hs : scanFound action_type actions = true
      · rw [if_pos hs] at h
        cases h
        intro e he
        simp only [List.mem_cons, List.mem_singleton] at he
        rcases he with h1 | h1 | h1
        · exact Or.inl ⟨actions, h1⟩
        · exact Or.inr (Or.inr h1)
        · cases h1
      · rw [if_neg hs] at h
        cases hw : wait_for_action_completionF fetch action_type droplet_id n (i + 1) with
        | none => rw [hw] at h; cases h
        | some p0 =>
          rw [hw] at h
          simp only [Option.map_some'] at h
          cases h
          intro e he
          simp only [List.mem_cons] at he
          rcases he with h1 | h1 | h1
          · exact Or.inl ⟨actions, h1⟩
          · exact Or.inr (Or.inr h1)
          · exact ih (i + 1) p0 hw e h1

theorem detach_wait_shape (get_vols : Nat → List String) (droplet_id : Nat)
    (volume_id : String) : ∀ (fuel i : Nat) (tr : List Ev),
    wait_for_volume_detachment get_vols droplet_id volume_id fuel i = some tr →
    (∀ e ∈ tr, (∃ w, e = Ev.pollDroplet droplet_id w) ∨ e = Ev.sleep) ∧
    ∃ w, Ev.pollDroplet droplet_id w ∈ tr ∧ volume_id ∉ w := by
  intro fuel
  induction fuel with
  | zero => intro i tr h; cases h
  | succ n ih =>
    intro i tr h
    simp only [wait_for_volume_detachment] at h
    by_cases hs : volume_id ∈ get_vols i
    · rw [if_pos hs] at h
      cases hw : wait_for_volume_detachment get_vols droplet_id volume_id n (i + 1) with
      | none => rw [hw] at h; cases h
      | some tr0 =>
        rw [hw] at h
        simp only [Option.map_some'] at h
        cases h
        obtain ⟨hshape, w, hwmem, hwabs⟩ := ih (i + 1) tr0 hw
        constructor
        · intro e he
          simp only [List.mem_cons] at he
          rcases he with h1 | h1 | h1
          · exact Or.inl ⟨get_vols i, h1⟩
          · exact Or.inr h1
          · exact hshape e h1
        · exact ⟨w, by simp [hwmem], hwabs⟩
    · rw [if_neg hs] at h
      cases h
      constructor
      · intro e he
        simp only [List.mem_singleton] at he
        exact Or.inl ⟨get_vols i, he⟩
      · exact ⟨get_vols i, by simp, hs⟩

theorem detachWaits_shape (o : DestroyOracle) (fuel droplet_id : Nat) :
    ∀ (vs : List String) (tr : List Ev),
    detachWaits o fuel droplet_id vs = some tr →
    (∀ e ∈ tr, (∃ w, e = Ev.pollDroplet droplet_id w) ∨ e = Ev.sleep) ∧
    ∀ v ∈ vs, ∃ w, Ev.pollDroplet droplet_id w ∈ tr ∧ v ∉ w := by
  intro vs
  induction vs with
  | nil =>
    intro tr h
    cases h
    exact ⟨fun e he => absurd he (List.not_mem_nil e), fun v hv => absurd hv (List.not_mem_nil v)⟩
  | cons v0 vs0 ih =>
    intro tr h
    simp only [detachWaits] at h
    cases hw : wait_for_volume_detachment (o.detachVols v0) droplet_id v0 fuel 0 with
    | none => rw [hw] at h; cases h
    | some tr1 =>
      rw [hw] at h
      cases hrest : detachWaits o fuel droplet_id vs0 with
      | none => rw [hrest] at h; cases h
      | some tr2 =>
        rw [hrest] at h
        cases h
        obtain ⟨hshape1, w1, hw1, habs1⟩ := detach_wait_shape (o.detachVols v0) droplet_id v0 fuel 0 tr1 hw
        obtain ⟨hshape2, hconf2⟩ := ih tr2 hrest
        constructor
        · intro e he
          rcases List.mem_append.mp he with h1 | h1
          · exact hshape1 e h1
          · exact hshape2 e h1
        · intro v hv
          rcases List.mem_cons.mp hv with h1 | h1
          · subst h1
            exact ⟨w1, List.mem_append.mpr (Or.inl hw1), habs1⟩
          · obtain ⟨w, hwmem, hwabs⟩ := hconf2 v h1
            exact ⟨w, List.mem_append.mpr (Or.inr hwmem), hwabs⟩

theorem detachPhase_shape (o : DestroyOracle) (fuel droplet_id : Nat) (tr : List Ev)
    (h : detachPhase o fuel droplet_id = some tr) :
    (∀ e ∈ tr, (∃ v, e = Ev.getVolume v) ∨ (∃ v, e = Ev.detachCall v droplet_id) ∨
      (∃ w, e = Ev.pollDroplet droplet_id w) ∨ e = Ev.sleep) ∧
    ∀ v ∈ o.volumeIds, ∃ w, Ev.pollDroplet droplet_id w ∈ tr ∧ v ∉ w := by
  simp only [detachPhase] at h
  by_cases he : o.volumeIds.isEmpty = true
  · rw [if_pos he] at h
    cases h
    have hnil : o.volumeIds = [] := List.isEmpty_iff.mp he
    constructor
    · intro e hmem
      exact absurd hmem (List.not_mem_nil e)
    · intro v hv
      rw [hnil] at hv
      exact absurd hv (List.not_mem_nil v)
  · rw [if_neg he] at h
    cases hwaits : detachWaits o fuel droplet_id o.volumeIds with
    | none => rw [hwaits] at h; cases h
    | some w =>
      rw [hwaits] at h
      simp only [Option.map_some'] at h
      cases h
      obtain ⟨hshapeW, hconf⟩ := detachWaits_shape o fuel droplet_id o.volumeIds w hwaits
      constructor
      · intro e hmem
        rcases List.mem_append.mp hmem with h1 | h1
        · obtain ⟨v, hv, hev⟩ := List.mem_flatMap.mp h1
          simp only [List.mem_cons, List.mem_singleton] at hev
          rcases hev with h2 | h2 | h2
          · exact Or.inl ⟨v, h2⟩
          · exact Or.inr (Or.inl ⟨v, h2⟩)
          · cases h2
        · rcases hshapeW e h1 with h2 | h2
          · exact Or.inr (Or.inr (Or.inl h2))
          · exact Or.inr (Or.inr (Or.inr h2))
      · intro v hv
        obtain ⟨w0, hwmem, hwabs⟩ := hconf v hv
        exact ⟨w0, List.mem_append.mpr (Or.inr hwmem), hwabs⟩

theorem snapshotPhase_shape (o : DestroyOracle) (fuel droplet_id : Nat) (file : SnapFile)
    (st : List Ev) (f2 : SnapFile)
    (h : snapshotPhase o fuel droplet_id file = some (st, f2)) :
    (∀ e ∈ st, isSnapStep droplet_id e ∨ e = Ev.sleep) ∧
    (∀ s, Ev.writeSnapshotInfo s ∈ st → f2 = update_snapshot_info s) := by
  simp only [snapshotPhase] at h
  cases hw : wait_for_action_completion o.snapActs "snapshot" droplet_id fuel 0 with
  | none => rw [hw] at h; cases h
  | some wtr =>
    rw [hw] at h
    obtain ⟨hshapeW, -⟩ := wait_shape o.snapActs "snapshot" droplet_id fuel 0 wtr hw
    have hwtr : ∀ e ∈ wtr, isSnapStep droplet_id e ∨ e = Ev.sleep := by
      intro e hmem
      rcases hshapeW e hmem with ⟨a, ha⟩ | ha
      · exact Or.inl (Or.inr (Or.inl ⟨a, ha⟩))
      · exact Or.inr ha
    have hwtrW : ∀ s, Ev.writeSnapshotInfo s ∉ wtr := by
      intro s hmem
      rcases hshapeW _ hmem with ⟨a, ha⟩ | ha <;> cases ha
    cases hf : o.snapshots.find? (fun snap => snap.name == snapshot_name droplet_id o.timestamp) with
    | some snap =>
      rw [hf] at h
      cases h
      constructor
      · intro e hmem
        rcases List.mem_cons.mp hmem with h1 | h1
        · exact Or.inl (Or.inl ⟨snapshot_name droplet_id o.timestamp, h1⟩)
        · rcases List.mem_append.mp h1 with h2 | h2
          · exact hwtr e h2
          · rcases List.mem_cons.mp h2 with h3 | h3
            · exact Or.inl (Or.inr (Or.inr (Or.inl h3)))
            · have h4 := List.mem_singleton.mp h3
              exact Or.inl (Or.inr (Or.inr (Or.inr ⟨snap.id, h4⟩)))
      · intro s hmem
        rcases List.mem_cons.mp hmem with h1 | h1
        · cases h1
        · rcases List.mem_append.mp h1 with h2 | h2
          · exact absurd h2 (hwtrW s)
          · rcases List.mem_cons.mp h2 with h3 | h3
            · cases h3
            · have h4 := List.mem_singleton.mp h3
              injection h4 with h5
              rw [h5]
    | none =>
      rw [hf] at h
      cases h
      constructor
      · intro e hmem
        rcases List.mem_cons.mp hmem with h1 | h1
        · exact Or.inl (Or.inl ⟨snapshot_name droplet_id o.timestamp, h1⟩)
        · rcases List.mem_append.mp h1 with h2 | h2
          · exact hwtr e h2
          · have h3 := List.mem_singleton.mp h2
            exact Or.inl (Or.inr (Or.inr (Or.inl h3)))
      · intro s hmem
        rcases List.mem_cons.mp hmem with h1 | h1
        · cases h1
        · rcases List.mem_append.mp h1 with h2 | h2
          · exact absurd h2 (hwtrW s)
          · have h3 := List.mem_singleton.mp h2
            cases h3

/-- Destructuring of a completed destroy run into its four ordered
segments. -/
theorem shutdown_and_snapshot_destruct (o : DestroyOracle) (fuel droplet_id : Nat)
    (skip_snapshot : Bool) (file : SnapFile) (tr : List Ev) (f2 : SnapFile)
    (h : shutdown_and_snapshot o fuel droplet_id skip_snapshot file = some (tr, f2)) :
    ∃ shutTr detTr snapTr,
      wait_for_action_completion o.shutActs "shutdown" droplet_id fuel 0 = some shutTr ∧
      detachPhase o fuel droplet_id = some detTr ∧
      (if skip_snapshot then some ([], file) else snapshotPhase o fuel droplet_id file) =
        some (snapTr, f2) ∧
      tr = (Ev.getDroplet droplet_id :: Ev.shutdownCall droplet_id :: shutTr) ++
           (Ev.loadDroplet droplet_id :: detTr) ++ snapTr ++ [Ev.deleteDroplet droplet_id] := by
  simp only [shutdown_and_snapshot] at h
  cases hw : wait_for_action_completion o.shutActs "shutdown" droplet_id fuel 0 with
  | none => rw [hw] at h; cases h
  | some shutTr =>
    rw [hw] at h
    cases hd : detachPhase o fuel droplet_id with
    | none => rw [hd] at h; cases h
    | some detTr =>
      rw [hd] at h
      cases hsp : (if skip_snapshot then some ([], file) else snapshotPhase o fuel droplet_id file) with
      | none => rw [hsp] at h; cases h
      | some sp =>
        rw [hsp] at h
        cases h
        exact ⟨shutTr, detTr, sp.1, rfl, rfl, rfl, rfl⟩

/-- Events of the shutdown segment are neither snapshot-step events nor
detachment polls nor the deletion call. -/
theorem shutSeg_not (o : DestroyOracle) (fuel droplet_id : Nat) (shutTr : List Ev)
    (hw : wait_for_action_completion o.shutActs "shutdown" droplet_id fuel 0 = some shutTr) :
    ∀ e ∈ Ev.getDroplet droplet_id :: Ev.shutdownCall droplet_id :: shutTr,
      ¬ isSnapStep droplet_id e ∧ ¬ isDetachPoll droplet_id e ∧
      e ≠ Ev.deleteDroplet droplet_id := by
  intro e he
  obtain ⟨hshape, -⟩ := wait_shape o.shutActs "shutdown" droplet_id fuel 0 shutTr hw
  rcases List.mem_cons.mp he with h1 | h1
  · subst h1
    refine ⟨?_, ?_, ?_⟩ <;> simp [isSnapStep, isDetachPoll]
  rcases List.mem_cons.mp h1 with h2 | h2
  · subst h2
    refine ⟨?_, ?_, ?_⟩ <;> simp [isSnapStep, isDetachPoll]
  rcases hshape e h2 with ⟨a, h3⟩ | h3 <;> subst h3 <;>
    refine ⟨?_, ?_, ?_⟩ <;> simp [isSnapStep, isDetachPoll]

/-- Events of the detach segment are neither snapshot-step events nor the
deletion call. -/
theorem detSeg_not (o : DestroyOracle) (fuel droplet_id : Nat) (detTr : List Ev)
    (hd : detachPhase o fuel droplet_id = some detTr) :
    ∀ e ∈ Ev.loadDroplet droplet_id :: detTr,
      ¬ isSnapStep droplet_id e ∧ e ≠ Ev.deleteDroplet droplet_id := by
  intro e he
  obtain ⟨hshape, -⟩ := detachPhase_shape o fuel droplet_id detTr hd
  rcases List.mem_cons.mp he with h1 | h1
  · subst h1
    exact ⟨by simp [isSnapStep], by simp⟩
  rcases hshape e h1 with ⟨v, h2⟩ | ⟨v, h2⟩ | ⟨w, h2⟩ | h2 <;> subst h2 <;>
    exact ⟨by simp [isSnapStep], by simp⟩

/-- Events of the snapshot segment are neither detachment polls nor the
deletion call. -/
theorem snapSeg_not (droplet_id : Nat) (snapTr : List Ev)
    (hs : ∀ e ∈ snapTr, isSnapStep droplet_id e ∨ e = Ev.sleep) :
    ∀ e ∈ snapTr, ¬ isDetachPoll droplet_id e ∧ e ≠ Ev.deleteDroplet droplet_id := by
  intro e he
  rcases hs e he with h1 | h1
  · rcases h1 with ⟨n, h⟩ | ⟨a, h⟩ | h | ⟨s, h⟩ <;> subst h <;>
      exact ⟨by simp [isDetachPoll], by simp⟩
  · subst h1
    exact ⟨by simp [isDetachPoll], by simp⟩

/-- The snapshot segment of a completed destroy run contains only
snapshot-step events and sleeps, for either skip_snapshot value. -/
theorem snapSeg_shape (o : DestroyOracle) (fuel droplet_id : Nat)
    (skip_snapshot : Bool) (file f2 : SnapFile) (snapTr : List Ev)
    (hsp : (if skip_snapshot then some ([], file)
            else snapshotPhase o fuel droplet_id file) = some (snapTr, f2)) :
    ∀ e ∈ snapTr, isSnapStep droplet_id e ∨ e = Ev.sleep := by
  cases skip_snapshot with
  | true =>
    rw [if_pos rfl] at hsp
    have h1 : snapTr = [] := by
      injection hsp with h2
      injection h2 with h3 h4
      exact h3.symm
    rw [h1]
    intro e he
    exact absurd he (List.not_mem_nil e)
  | false =>
    rw [if_neg Bool.false_ne_true] at hsp
    exact (snapshotPhase_shape o fuel droplet_id file snapTr f2 hsp).1

/-- C1: in every completed destroy run the lifecycle steps are strictly
ordered — each snapshot-step event and each volume-detachment poll occurs
only after a shutdown-wait fetch that observed the completed shutdown
action, and the deletion call occurs after every detachment poll and
snapshot-step event, with each attached volume confirmed absent by an
earlier poll. -/
theorem C1_destroy_step_ordering (o : DestroyOracle) (fuel droplet_id : Nat)
    (skip_snapshot : Bool) (file f2 : SnapFile) (tr : List Ev)
    (h : shutdown_and_snapshot o fuel droplet_id skip_snapshot file = some (tr, f2)) :
    destroyOrdered droplet_id o.volumeIds tr := by
  obtain ⟨shutTr, detTr, snapTr, hw, hd, hsp, htr⟩ :=
    shutdown_and_snapshot_destruct o fuel droplet_id skip_snapshot file tr f2 h
  obtain ⟨hshape1, a, ha, hamem⟩ := wait_shape o.shutActs "shutdown" droplet_id fuel 0 shutTr hw
  obtain ⟨hshape2, hconf⟩ := detachPhase_shape o fuel droplet_id detTr hd
  have hsnapshape := snapSeg_shape o fuel droplet_id skip_snapshot file f2 snapTr hsp
  have hnotA := shutSeg_not o fuel droplet_id shutTr hw
  have hnotB := detSeg_not o fuel droplet_id detTr hd
  have hnotC := snapSeg_not droplet_id snapTr hsnapshape
  have hobsA : ∃ e ∈ Ev.getDroplet droplet_id :: Ev.shutdownCall droplet_id :: shutTr,
      isShutObs droplet_id e := by
    refine ⟨Ev.fetchActions droplet_id "shutdown" a, ?_, a, rfl, ha⟩
    simp [hamem]
  subst htr
  refine ⟨?_, ?_, ?_⟩
  · -- snapshot-step events come after the observed shutdown completion
    rw [List.append_assoc]
    refine precedes_of_split (isShutObs droplet_id) (isSnapStep droplet_id) _ _ ?_ ?_
    · obtain ⟨e, he, hPe⟩ := hobsA
      exact ⟨e, List.mem_append.mpr (Or.inl he), hPe⟩
    · intro e he
      rcases List.mem_append.mp he with h1 | h1
      · exact (hnotA e h1).1
      · exact (hnotB e h1).1
  · -- detachment polls come after the observed shutdown completion
    rw [List.append_assoc, List.append_assoc,
        ← List.append_assoc (Ev.loadDroplet droplet_id :: detTr) snapTr [Ev.deleteDroplet droplet_id]]
    refine precedes_of_split (isShutObs droplet_id) (isDetachPoll droplet_id) _ _ hobsA ?_
    intro e he
    exact (hnotA e he).2.1
  · -- the delete call comes last
    intro i hi hdel
    have hple : ((Ev.getDroplet droplet_id :: Ev.shutdownCall droplet_id :: shutTr) ++
        (Ev.loadDroplet droplet_id :: detTr) ++ snapTr).length ≤ i := by
      refine prefix_length_le_of_get (fun e => e = Ev.deleteDroplet droplet_id) _ _ ?_ i hi hdel
      intro e he
      rcases List.mem_append.mp he with h1 | h1
      · rcases List.mem_append.mp h1 with h2 | h2
        · exact (hnotA e h2).2.2
        · exact (hnotB e h2).2
      · exact (hnotC e h1).2
    constructor
    · intro j hj hQ
      have hjlt := lt_prefix_length_of_get
        (fun e => isDetachPoll droplet_id e ∨ isSnapStep droplet_id e) _ _ ?_ j hj hQ
      · omega
      · intro e he
        have he2 : e = Ev.deleteDroplet droplet_id := List.mem_singleton.mp he
        subst he2
        rintro (⟨w, hcontra⟩ | hcontra)
        · cases hcontra
        · rcases hcontra with ⟨n, h2⟩ | ⟨a2, h2⟩ | h2 | ⟨s2, h2⟩ <;> cases h2
    · intro v hv
      obtain ⟨w, hwmem, hwabs⟩ := hconf v hv
      have hwp : Ev.pollDroplet droplet_id w ∈
          (Ev.getDroplet droplet_id :: Ev.shutdownCall droplet_id :: shutTr) ++
          (Ev.loadDroplet droplet_id :: detTr) ++ snapTr := by
        refine List.mem_append.mpr (Or.inl ?_)
        refine List.mem_append.mpr (Or.inr ?_)
        exact List.mem_cons.mpr (Or.inr hwmem)
      obtain ⟨j, hj, hjlt, hget⟩ := mem_prefix_get _ [Ev.deleteDroplet droplet_id] hwp
      exact ⟨j, hj, by omega, w, hget, hwabs⟩

/-- C1 (witness): a concrete destroy run with one attached volume, all
waits completing, and the snapshot resolved and persisted, satisfies the
lifecycle ordering. -/
theorem C1_witness :
    runD1 = some (trD1, fileD1) ∧ destroyOrdered 7 oD1.volumeIds trD1 := by
  constructor
  · rfl
  · exact C1_destroy_step_ordering oD1 1 7 false (some [("SNAPSHOT_ID", 1)]) fileD1 trD1 rfl

/-- C6: a destroy run invoked with skip_snapshot set never writes the
persisted snapshot record — the final file equals the initial one and no
write event occurs in the trace. -/
theorem C6_skip_snapshot_no_write (o : DestroyOracle) (fuel droplet_id : Nat)
    (file f2 : SnapFile) (tr : List Ev)
    (h : shutdown_and_snapshot o fuel droplet_id true file = some (tr, f2)) :
    f2 = file ∧ ∀ s, Ev.writeSnapshotInfo s ∉ tr := by
  obtain ⟨shutTr, detTr, snapTr, hw, hd, hsp, htr⟩ :=
    shutdown_and_snapshot_destruct o fuel droplet_id true file tr f2 h
  rw [if_pos rfl] at hsp
  have hpair : snapTr = [] ∧ f2 = file := by
    injection hsp with h2
    injection h2 with h3 h4
    exact ⟨h3.symm, h4.symm⟩
  obtain ⟨hsnapTr, hfile⟩ := hpair
  subst hsnapTr
  have hnotA := shutSeg_not o fuel droplet_id shutTr hw
  have hnotB := detSeg_not o fuel droplet_id detTr hd
  refine ⟨hfile, ?_⟩
  intro s hmem
  subst htr
  rcases List.mem_append.mp hmem with h1 | h1
  · rcases List.mem_append.mp h1 with h2 | h2
    · rcases List.mem_append.mp h2 with h3 | h3
      · exact (hnotA _ h3).1 (Or.inr (Or.inr (Or.inr ⟨s, rfl⟩)))
      · exact (hnotB _ h3).1 (Or.inr (Or.inr (Or.inr ⟨s, rfl⟩)))
    · exact absurd h2 (List.not_mem_nil _)
  · cases List.mem_singleton.mp h1

/-- C6 (witness): a concrete skip-snapshot destroy run leaves the
pre-existing record untouched and performs no write. -/
theorem C6_witness :
    runD6 = some (trD6, some [("SNAPSHOT_ID", 5)]) ∧
    ∀ s, Ev.writeSnapshotInfo s ∉ trD6 := by
  refine ⟨rfl, ?_⟩
  exact (C6_skip_snapshot_no_write oD6 1 3 (some [("SNAPSHOT_ID", 5)])
    (some [("SNAPSHOT_ID", 5)]) trD6 rfl).2

/-- C9: in the non-skip path the snapshot is taken under exactly the name
Snapshot-id-timestamp, the result is resolved as the first listing entry
with that name; on a match its id is persisted (overwriting whatever the
file held); on no match nothing is written and the file is unchanged; and
the droplet deletion is issued in either case. -/
theorem C9_snapshot_resolution (o : DestroyOracle) (fuel droplet_id : Nat)
    (file f2 : SnapFile) (tr : List Ev)
    (h : shutdown_and_snapshot o fuel droplet_id false file = some (tr, f2)) :
    Ev.takeSnapshot droplet_id (snapshot_name droplet_id o.timestamp) ∈ tr ∧
    (∀ n, Ev.takeSnapshot droplet_id n ∈ tr → n = snapshot_name droplet_id o.timestamp) ∧
    (∀ snap, o.snapshots.find?
        (fun s => s.name == snapshot_name droplet_id o.timestamp) = some snap →
      f2 = update_snapshot_info snap.id ∧ Ev.writeSnapshotInfo snap.id ∈ tr) ∧
    (o.snapshots.find? (fun s => s.name == snapshot_name droplet_id o.timestamp) = none →
      f2 = file ∧ ∀ s, Ev.writeSnapshotInfo s ∉ tr) ∧
    Ev.deleteDroplet droplet_id ∈ tr := by
  obtain ⟨shutTr, detTr, snapTr, hw, hd, hsp, htr⟩ :=
    shutdown_and_snapshot_destruct o fuel droplet_id false file tr f2 h
  rw [if_neg Bool.false_ne_true] at hsp
  have hnotA := shutSeg_not o fuel droplet_id shutTr hw
  have hnotB := detSeg_not o fuel droplet_id detTr hd
  simp only [snapshotPhase] at hsp
  cases hw2 : wait_for_action_completion o.snapActs "snapshot" droplet_id fuel 0 with
  | none => rw [hw2] at hsp; cases hsp
  | some wtr =>
    rw [hw2] at hsp
    obtain ⟨hshapeW, -⟩ := wait_shape o.snapActs "snapshot" droplet_id fuel 0 wtr hw2
    cases hf : o.snapshots.find? (fun s => s.name == snapshot_name droplet_id o.timestamp) with
    | some snap =>
      rw [hf] at hsp
      have hpair : snapTr = Ev.takeSnapshot droplet_id (snapshot_name droplet_id o.timestamp) ::
          wtr ++ [Ev.getAllSnapshots, Ev.writeSnapshotInfo snap.id] ∧
          f2 = update_snapshot_info snap.id := by
        injection hsp with h2
        injection h2 with h3 h4
        exact ⟨h3.symm, h4.symm⟩
      obtain ⟨hsnapTr, hf2⟩ := hpair
      subst hsnapTr
      subst htr
      have htake : Ev.takeSnapshot droplet_id (snapshot_name droplet_id o.timestamp) ∈
          (Ev.getDroplet droplet_id :: Ev.shutdownCall droplet_id :: shutTr) ++
          (Ev.loadDroplet droplet_id :: detTr) ++
          (Ev.takeSnapshot droplet_id (snapshot_name droplet_id o.timestamp) ::
            wtr ++ [Ev.getAllSnapshots, Ev.writeSnapshotInfo snap.id]) ++
          [Ev.deleteDroplet droplet_id] := by simp
      refine ⟨htake, ?_, ?_, ?_, by simp⟩
      · intro n hn
        rcases List.mem_append.mp hn with h1 | h1
        · rcases List.mem_append.mp h1 with h2 | h2
          · rcases List.mem_append.mp h2 with h3 | h3
            · exact absurd (Or.inl ⟨n, rfl⟩) ((hnotA _ h3).1)
            · exact absurd (Or.inl ⟨n, rfl⟩) ((hnotB _ h3).1)
          · rcases List.mem_cons.mp h2 with h3 | h3
            · injection h3 with h4 h5
            · rcases List.mem_append.mp h3 with h4 | h4
              · rcases hshapeW _ h4 with ⟨a, h5⟩ | h5 <;> cases h5
              · rcases List.mem_cons.mp h4 with h5 | h5
                · cases h5
                · cases List.mem_singleton.mp h5
        · cases List.mem_singleton.mp h1
      · intro snap2 hfind2
        injection hfind2 with h2
        subst h2
        exact ⟨hf2, by simp⟩
      · intro hnone
        cases hnone
    | none =>
      rw [hf] at hsp
      have hpair : snapTr = Ev.takeSnapshot droplet_id (snapshot_name droplet_id o.timestamp) ::
          wtr ++ [Ev.getAllSnapshots] ∧ f2 = file := by
        injection hsp with h2
        injection h2 with h3 h4
        exact ⟨h3.symm, h4.symm⟩
      obtain ⟨hsnapTr, hf2⟩ := hpair
      subst hsnapTr
      subst htr
      refine ⟨by simp, ?_, ?_, ?_, by simp⟩
      · intro n hn
        rcases List.mem_append.mp hn with h1 | h1
        · rcases List.mem_append.mp h1 with h2 | h2
          · rcases List.mem_append.mp h2 with h3 | h3
            · exact absurd (Or.inl ⟨n, rfl⟩) ((hnotA _ h3).1)
            · exact absurd (Or.inl ⟨n, rfl⟩) ((hnotB _ h3).1)
          · rcases List.mem_cons.mp h2 with h3 | h3
            · injection h3 with h4 h5
            · rcases List.mem_append.mp h3 with h4 | h4
              · rcases hshapeW _ h4 with ⟨a, h5⟩ | h5 <;> cases h5
              · cases List.mem_singleton.mp h4
        · cases List.mem_singleton.mp h1
      · intro snap2 hfind2
        cases hfind2
      · intro hnone
        refine ⟨hf2, ?_⟩
        intro s hmem
        rcases List.mem_append.mp hmem with h1 | h1
        · rcases List.mem_append.mp h1 with h2 | h2
          · rcases List.mem_append.mp h2 with h3 | h3
            · exact (hnotA _ h3).1 (Or.inr (Or.inr (Or.inr ⟨s, rfl⟩)))
            · exact (hnotB _ h3).1 (Or.inr (Or.inr (Or.inr ⟨s, rfl⟩)))
          · rcases List.mem_cons.mp h2 with h3 | h3
            · cases h3
            · rcases List.mem_append.mp h3 with h4 | h4
              · rcases hshapeW _ h4 with ⟨a, h5⟩ | h5 <;> cases h5
              · cases List.mem_singleton.mp h4
        · cases List.mem_singleton.mp h1

/-- C9 (witness): a concrete non-skip destroy run takes the snapshot under
the deterministic name, persists the matched listing id 88, and issues the
deletion. -/
theorem C9_witness :
    runD9 = some (trD9, fileD9) ∧
    Ev.takeSnapshot 4 (snapshot_name 4 oD9.timestamp) ∈ trD9 ∧
    fileD9 = update_snapshot_info 88 ∧
    Ev.deleteDroplet 4 ∈ trD9 := by
  have h := C9_snapshot_resolution oD9 1 4 none fileD9 trD9 rfl
  refine ⟨rfl, h.1, ?_, h.2.2.2.2⟩
  exact (h.2.2.1 ⟨"Snapshot-4-20250101120000", 88⟩ rfl).1

/-- C5 (counterexample): the round-trip claim fails for the snapshot ID 0.
A destroy run whose listing resolves the deterministic name to id 0 writes
0 to the record, but the subsequent restore — even against a provider on
which the snapshot exists — treats the stored 0 as missing (Python's
falsy check), reports the error and issues no provider call at all, so the
written ID is never used as a boot image. -/
theorem C5_counterexample :
    runD5 = some (trD5, some [("SNAPSHOT_ID", 0)]) ∧
    Ev.writeSnapshotInfo 0 ∈ trD5 ∧
    restore_droplet_from_snapshot ro5c 1 (some [("SNAPSHOT_ID", 0)]) "vol-cfg" =
      some ([], RestoreOutcome.noSnapshotId) := by
  refine ⟨rfl, by decide, rfl⟩

/-- C5 (amended): for every nonzero snapshot ID s written to the persisted
record by destroy's non-skip path, a subsequent restore with no
intervening write reads back exactly s, and — when the snapshot still
exists on the provider — uses s as the boot image of the new instance.
(The unamended claim fails at s = 0, which restore's falsy guard treats as
absent.) -/
theorem C5_roundtrip_nonzero (o : DestroyOracle) (fuel droplet_id : Nat)
    (file f2 : SnapFile) (tr : List Ev) (s : Nat) (ro : RestoreOracle)
    (rfuel : Nat) (vol : String) (rtr : List Ev) (rout : RestoreOutcome)
    (h : shutdown_and_snapshot o fuel droplet_id false file = some (tr, f2))
    (hwmem : Ev.writeSnapshotInfo s ∈ tr)
    (hs : s ≠ 0)
    (hr : restore_droplet_from_snapshot ro rfuel f2 vol = some (rtr, rout)) :
    (read_snapshot_info f2).lookup "SNAPSHOT_ID" = some s ∧
    (ro.imageExists = true → Ev.createDropletCall (Image.snapshot s) [vol] ∈ rtr) := by
  obtain ⟨shutTr, detTr, snapTr, hw, hd, hsp, htr⟩ :=
    shutdown_and_snapshot_destruct o fuel droplet_id false file tr f2 h
  rw [if_neg Bool.false_ne_true] at hsp
  have hnotA := shutSeg_not o fuel droplet_id shutTr hw
  have hnotB := detSeg_not o fuel droplet_id detTr hd
  obtain ⟨hshapeC, hwriteC⟩ := snapshotPhase_shape o fuel droplet_id file snapTr f2 hsp
  have hwsnap : Ev.writeSnapshotInfo s ∈ snapTr := by
    subst htr
    rcases List.mem_append.mp hwmem with h1 | h1
    · rcases List.mem_append.mp h1 with h2 | h2
      · rcases List.mem_append.mp h2 with h3 | h3
        · exact absurd (Or.inr (Or.inr (Or.inr ⟨s, rfl⟩))) ((hnotA _ h3).1)
        · exact absurd (Or.inr (Or.inr (Or.inr ⟨s, rfl⟩))) ((hnotB _ h3).1)
      · exact h2
    · cases List.mem_singleton.mp h1
  have hf2 : f2 = update_snapshot_info s := hwriteC s hwsnap
  subst hf2
  have hlook : (read_snapshot_info (update_snapshot_info s)).lookup "SNAPSHOT_ID" = some s := by
    simp [read_snapshot_info, update_snapshot_info, List.lookup]
  refine ⟨hlook, ?_⟩
  intro himg
  simp only [restore_droplet_from_snapshot, hlook] at hr
  rw [if_neg hs, if_pos himg] at hr
  cases hw3 : wait_for_action_completion ro.createActs "create" ro.newDropletId rfuel 0 with
  | none => rw [hw3] at hr; cases hr
  | some wtr =>
    rw [hw3] at hr
    cases hr
    simp

/-- C5 (witness): a concrete destroy run writes the nonzero id 42; the
subsequent restore reads 42 back and boots the new droplet from image 42. -/
theorem C5_witness :
    runD5w = some (trD5w, fileD5w) ∧
    (read_snapshot_info fileD5w).lookup "SNAPSHOT_ID" = some 42 ∧
    Ev.createDropletCall (Image.snapshot 42) ["vol-cfg"] ∈ trR5 := by
  have h := C5_roundtrip_nonzero oD5w 1 7 none fileD5w trD5w 42 ro5 1 "vol-cfg" trR5
    RestoreOutcome.restored rfl (by decide) (by decide) rfl
  exact ⟨rfl, h.1, h.2 rfl⟩

/-- C7: when the persisted record yields no snapshot id (missing file or
missing key), restore reports the absence and returns normally with an
empty trace — zero provider calls of any kind, mutating or not. -/
theorem C7_restore_no_record (ro : RestoreOracle) (fuel : Nat) (file : SnapFile)
    (volume_id : String)
    (h : (read_snapshot_info file).lookup "SNAPSHOT_ID" = none) :
    restore_droplet_from_snapshot ro fuel file volume_id =
      some ([], RestoreOutcome.noSnapshotId) := by
  simp only [restore_droplet_from_snapshot, h]

/-- C7 (witness): restore against an absent snapshot_info.json returns the
reported-error outcome with an empty trace. -/
theorem C7_witness :
    (read_snapshot_info (none : SnapFile)).lookup "SNAPSHOT_ID" = none ∧
    restore_droplet_from_snapshot ro7 1 none "vol-x" =
      some ([], RestoreOutcome.noSnapshotId) :=
  ⟨rfl, C7_restore_no_record ro7 1 none "vol-x" rfl⟩

/-- C3: when droplet creation has assigned an id and the create-action
poll then raises, create_droplet issues exactly one compensating cleanup
for that id (one manager.get_droplet, and one destroy call when that get
succeeds, none when it fails — never a retry) and propagates the poll's
original error regardless of the cleanup's own outcome. -/
theorem C3_compensating_cleanup (o : CreateOracle) (fuel : Nat) (volume_id : String)
    (droplet_id : Nat) (wtr : List Ev) (e : Err)
    (hkeys : o.sshKeys = Except.ok ())
    (hcreate : o.createCall = Except.ok droplet_id)
    (hpoll : wait_for_action_completionF o.pollFetch "create" droplet_id fuel 0 =
      some (wtr, some e)) :
    create_droplet o fuel volume_id =
      some (createFailTrace o volume_id wtr droplet_id, Except.error e) ∧
    (createFailTrace o volume_id wtr droplet_id).count (Ev.getDropletCall (some droplet_id)) = 1 ∧
    (o.cleanupGet = Except.ok () →
      (createFailTrace o volume_id wtr droplet_id).count (Ev.destroyDroplet (some droplet_id)) = 1) ∧
    (∀ e2, o.cleanupGet = Except.error e2 →
      (createFailTrace o volume_id wtr droplet_id).count (Ev.destroyDroplet (some droplet_id)) = 0) := by
  have hget_not : Ev.getDropletCall (some droplet_id) ∉ wtr := by
    intro hmem
    rcases waitF_shape o.pollFetch "create" droplet_id fuel 0 (wtr, some e) hpoll _ hmem with
      ⟨a, h1⟩ | h1 | h1 <;> cases h1
  have hdes_not : Ev.destroyDroplet (some droplet_id) ∉ wtr := by
    intro hmem
    rcases waitF_shape o.pollFetch "create" droplet_id fuel 0 (wtr, some e) hpoll _ hmem with
      ⟨a, h1⟩ | h1 | h1 <;> cases h1
  refine ⟨?_, ?_, ?_, ?_⟩
  · simp only [create_droplet, hkeys, hcreate, hpoll, createFailTrace]
  · cases hg : o.cleanupGet with
    | ok u =>
      cases u
      simp [createFailTrace, cleanup_droplet, hg, List.count_append, List.count_cons,
        List.count_eq_zero.mpr hget_not]
    | error e2 =>
      simp [createFailTrace, cleanup_droplet, hg, List.count_append, List.count_cons,
        List.count_eq_zero.mpr hget_not]
  · intro hg
    simp [createFailTrace, cleanup_droplet, hg, List.count_append, List.count_cons,
      List.count_eq_zero.mpr hdes_not]
  · intro e2 hg
    simp [createFailTrace, cleanup_droplet, hg, List.count_append, List.count_cons,
      List.count_eq_zero.mpr hdes_not]

/-- C3 (witness): on a concrete provider assigning droplet id 5 whose
first poll fetch raises, the run issues exactly one cleanup for id 5 —
whose own destroy fails, only logged — and propagates the poll's error. -/
theorem C3_witness :
    create_droplet oC3 1 "vol-1" =
      some (createFailTrace oC3 "vol-1" [Ev.fetchActionsFail 5 "create"] 5,
            Except.error (Err.providerErr "boom")) ∧
    (createFailTrace oC3 "vol-1" [Ev.fetchActionsFail 5 "create"] 5).count
      (Ev.getDropletCall (some 5)) = 1 := by
  have h := C3_compensating_cleanup oC3 1 "vol-1" 5 [Ev.fetchActionsFail 5 "create"]
    (Err.providerErr "boom") rfl rfl rfl
  exact ⟨h.1, h.2.1⟩

/-- Events issued by cleanup_droplet are the get and the destroy of the
given droplet id only. -/
theorem cleanup_droplet_events (g d : Except Err Unit) (i : Option Nat) :
    ∀ e ∈ cleanup_droplet g d i, e = Ev.getDropletCall i ∨ e = Ev.destroyDroplet i := by
  intro e he
  cases g with
  | ok u =>
    simp only [cleanup_droplet] at he
    rcases List.mem_cons.mp he with h1 | h1
    · exact Or.inl h1
    · exact Or.inr (List.mem_singleton.mp h1)
  | error e0 =>
    simp only [cleanup_droplet] at he
    exact Or.inl (List.mem_singleton.mp he)

/-- No run of create_droplet ever deletes a volume. -/
theorem create_droplet_no_volume_delete (o : CreateOracle) (fuel : Nat)
    (volume_id : String) (tr : List Ev) (res : Except Err Nat)
    (h : create_droplet o fuel volume_id = some (tr, res)) :
    ∀ v, Ev.destroyVolume v ∉ tr := by
  intro v hmem
  cases hk : o.sshKeys with
  | error e0 =>
    simp only [create_droplet, hk] at h
    cases h
    cases List.mem_singleton.mp hmem
  | ok u =>
    cases hc : o.createCall with
    | error e0 =>
      simp only [create_droplet, hk, hc] at h
      cases h
      rcases List.mem_append.mp hmem with h1 | h1
      · rcases List.mem_cons.mp h1 with h2 | h2
        · cases h2
        · cases List.mem_singleton.mp h2
      · rcases cleanup_droplet_events o.cleanupGet o.cleanupDestroy none _ h1 with h2 | h2 <;>
          cases h2
    | ok droplet_id =>
      cases hwv : wait_for_action_completionF o.pollFetch "create" droplet_id fuel 0 with
      | none =>
        simp only [create_droplet, hk, hc, hwv] at h
        cases h
      | some p =>
        obtain ⟨wtr, wres⟩ := p
        cases wres with
        | none =>
          simp only [create_droplet, hk, hc, hwv] at h
          cases h
          rcases List.mem_append.mp hmem with h1 | h1
          · rcases List.mem_cons.mp h1 with h2 | h2
            · cases h2
            · cases List.mem_singleton.mp h2
          · rcases waitF_shape o.pollFetch "create" droplet_id fuel 0 (wtr, none) hwv _ h1 with
              ⟨a, h2⟩ | h2 | h2 <;> cases h2
        | some e0 =>
          simp only [create_droplet, hk, hc, hwv] at h
          cases h
          rcases List.mem_append.mp hmem with h1 | h1
          · rcases List.mem_append.mp h1 with h2 | h2
            · rcases List.mem_cons.mp h2 with h3 | h3
              · cases h3
              · cases List.mem_singleton.mp h3
            · rcases waitF_shape o.pollFetch "create" droplet_id fuel 0 (wtr, some e0) hwv _ h2 with
                ⟨a, h3⟩ | h3 | h3 <;> cases h3
          · rcases cleanup_droplet_events o.cleanupGet o.cleanupDestroy (some droplet_id) _ h1 with
              h2 | h2 <;> cases h2

/-- No run of the create command ever deletes a volume. -/
theorem main_create_no_volume_delete (vc : Except Err String) (o : CreateOracle)
    (fuel : Nat) (tr : List Ev) (res : Except Err Nat)
    (h : main_create vc o fuel = some (tr, res)) :
    ∀ v, Ev.destroyVolume v ∉ tr := by
  intro v hmem
  cases hvc : vc with
  | error e0 =>
    simp only [main_create, create_volume, hvc] at h
    cases h
    cases List.mem_singleton.mp hmem
  | ok volume_id =>
    cases hcd : create_droplet o fuel volume_id with
    | none =>
      simp only [main_create, create_volume, hvc, hcd] at h
      cases h
    | some p =>
      simp only [main_create, create_volume, hvc, hcd] at h
      cases h
      rcases List.mem_append.mp hmem with h1 | h1
      · cases List.mem_singleton.mp h1
      · exact create_droplet_no_volume_delete o fuel volume_id p.1 p.2 (by rw [hcd]) v h1

/-- No destroy run ever deletes a volume (volumes are only detached). -/
theorem destroy_no_volume_delete (o : DestroyOracle) (fuel droplet_id : Nat)
    (skip_snapshot : Bool) (file f2 : SnapFile) (tr : List Ev)
    (h : shutdown_and_snapshot o fuel droplet_id skip_snapshot file = some (tr, f2)) :
    ∀ v, Ev.destroyVolume v ∉ tr := by
  intro v hmem
  obtain ⟨shutTr, detTr, snapTr, hw, hd, hsp, htr⟩ :=
    shutdown_and_snapshot_destruct o fuel droplet_id skip_snapshot file tr f2 h
  obtain ⟨hshape1, -⟩ := wait_shape o.shutActs "shutdown" droplet_id fuel 0 shutTr hw
  obtain ⟨hshape2, -⟩ := detachPhase_shape o fuel droplet_id detTr hd
  have hshape3 := snapSeg_shape o fuel droplet_id skip_snapshot file f2 snapTr hsp
  subst htr
  rcases List.mem_append.mp hmem with h1 | h1
  · rcases List.mem_append.mp h1 with h2 | h2
    · rcases List.mem_append.mp h2 with h3 | h3
      · rcases List.mem_cons.mp h3 with h4 | h4
        · cases h4
        rcases List.mem_cons.mp h4 with h5 | h5
        · cases h5
        rcases hshape1 _ h5 with ⟨a, h6⟩ | h6 <;> cases h6
      · rcases List.mem_cons.mp h3 with h4 | h4
        · cases h4
        rcases hshape2 _ h4 with ⟨v2, h5⟩ | ⟨v2, h5⟩ | ⟨w, h5⟩ | h5 <;> cases h5
    · rcases hshape3 _ h2 with h4 | h4
      · rcases h4 with ⟨n, h5⟩ | ⟨a, h5⟩ | h5 | ⟨s, h5⟩ <;> cases h5
      · cases h4
  · cases List.mem_singleton.mp h1

/-- No restore run ever deletes a volume. -/
theorem restore_no_volume_delete (o : RestoreOracle) (fuel : Nat) (file : SnapFile)
    (volume_id : String) (tr : List Ev) (rout : RestoreOutcome)
    (h : restore_droplet_from_snapshot o fuel file volume_id = some (tr, rout)) :
    ∀ v, Ev.destroyVolume v ∉ tr := by
  intro v hmem
  cases hlook : (read_snapshot_info file).lookup "SNAPSHOT_ID" with
  | none =>
    simp only [restore_droplet_from_snapshot, hlook] at h
    cases h
    exact absurd hmem (List.not_mem_nil _)
  | some sid =>
    simp only [restore_droplet_from_snapshot, hlook] at h
    by_cases hz : sid = 0
    · rw [if_pos hz] at h
      cases h
      exact absurd hmem (List.not_mem_nil _)
    · rw [if_neg hz] at h
      by_cases hex : o.imageExists = true
      · rw [if_pos hex] at h
        cases hwv : wait_for_action_completion o.createActs "create" o.newDropletId fuel 0 with
        | none => rw [hwv] at h; cases h
        | some wtr =>
          rw [hwv] at h
          cases h
          obtain ⟨hshapeW, -⟩ := wait_shape o.createActs "create" o.newDropletId fuel 0 wtr hwv
          rcases List.mem_cons.mp hmem with h1 | h1
          · cases h1
          rcases List.mem_cons.mp h1 with h2 | h2
          · cases h2
          rcases List.mem_cons.mp h2 with h3 | h3
          · cases h3
          rcases hshapeW _ h3 with ⟨a, h4⟩ | h4 <;> cases h4
      · rw [if_neg hex] at h
        cases h
        cases List.mem_singleton.mp hmem

/-- C10: no operation of the orchestrator ever deletes a volume — the
compensating cleanup of a failed create deletes only the droplet, and the
destroy and restore paths issue no volume deletion either — although the
cleanup_volume routine, which no operation calls, would issue one. -/
theorem C10_volume_never_deleted (vc : Except Err String) (co : CreateOracle)
    (fuel1 : Nat) (tr1 : List Ev) (res1 : Except Err Nat)
    (o2 : DestroyOracle) (fuel2 droplet_id : Nat) (skip : Bool) (file : SnapFile)
    (tr2 : List Ev) (f2 : SnapFile)
    (o3 : RestoreOracle) (fuel3 : Nat) (file3 : SnapFile) (vol : String)
    (tr3 : List Ev) (r3 : RestoreOutcome)
    (h1 : main_create vc co fuel1 = some (tr1, res1))
    (h2 : shutdown_and_snapshot o2 fuel2 droplet_id skip file = some (tr2, f2))
    (h3 : restore_droplet_from_snapshot o3 fuel3 file3 vol = some (tr3, r3)) :
    (∀ v, Ev.destroyVolume v ∉ tr1) ∧ (∀ v, Ev.destroyVolume v ∉ tr2) ∧
    (∀ v, Ev.destroyVolume v ∉ tr3) ∧
    (∀ d v, Ev.destroyVolume v ∈ cleanup_volume (Except.ok ()) d v) := by
  refine ⟨main_create_no_volume_delete vc co fuel1 tr1 res1 h1,
    destroy_no_volume_delete o2 fuel2 droplet_id skip file f2 tr2 h2,
    restore_no_volume_delete o3 fuel3 file3 vol tr3 r3 h3, ?_⟩
  intro d v
  simp [cleanup_volume]

/-- C10 (witness): a concrete create run that fails after the volume was
provisioned cleans up only the droplet — its trace, like those of concrete
destroy and restore runs, contains no volume deletion. -/
theorem C10_witness :
    runMC10 = some (trMC10, Except.error (Err.providerErr "boom")) ∧
    Ev.destroyVolume "vol-9" ∉ trMC10 ∧
    Ev.destroyVolume "vol-9" ∉ trD10 ∧
    Ev.destroyVolume "vol-9" ∉ trR10 := by
  have h := C10_volume_never_deleted vc10 co10 1 trMC10 (Except.error (Err.providerErr "boom"))
    oD10 1 2 true none trD10 none ro10 1 none "vol-9" trR10 RestoreOutcome.noSnapshotId
    rfl rfl rfl
  exact ⟨rfl, h.1 "vol-9", h.2.1 "vol-9", h.2.2.1 "vol-9"⟩

/-- C4 (counterexample): the claim that a missing or empty credential makes
the program fail fast before any provider call is false. With no
DO_API_TOKEN in the environment (and likewise with an empty-string token)
a create run proceeds and issues its provider calls, starting with the
volume creation, while the client simply carries the absent token. -/
theorem C4_counterexample :
    get_api_token env4 = none ∧
    runM4 = some (MainOut.ran ⟨none⟩
      [Ev.createVolumeCall "examplevolume2", Ev.getSshKeys,
       Ev.createDropletCall (Image.slug "fedora-39-x64") ["vol-123"],
       Ev.fetchActions 5 "create" [⟨"create", "completed"⟩], Ev.sleep]
      none MainResult.ok) ∧
    get_api_token env4e = some "" ∧
    runM4e = some (MainOut.ran ⟨some ""⟩
      [Ev.createVolumeCall "examplevolume2", Ev.getSshKeys,
       Ev.createDropletCall (Image.slug "fedora-39-x64") ["vol-123"],
       Ev.fetchActions 5 "create" [⟨"create", "completed"⟩], Ev.sleep]
      none MainResult.ok) := by
  refine ⟨rfl, by decide, rfl, by decide⟩

/-- C4 (amended): main validates the configuration file — a missing file,
malformed JSON, or absent VOLUME key aborts the run with zero provider
calls — but the API credential is never validated: get_api_token returns
the raw environment value, that raw value (possibly None or empty) is
stored in the Manager of every run that proceeds, and the run's observable
behaviour (trace, persisted file, result) is entirely independent of the
credential. -/
theorem C4_config_validated_credential_not (cfg : ConfigSrc)
    (env env2 : String → Option String) (argv : List String)
    (vc : Except Err String) (co : CreateOracle) (dro : DestroyOracle)
    (droplet_input : Nat) (ro : RestoreOracle) (file : SnapFile) (fuel : Nat) :
    (∀ e, read_config cfg = Except.error e →
      main cfg env argv vc co dro droplet_input ro file fuel =
        some (MainOut.configError e)) ∧
    get_api_token env = env "DO_API_TOKEN" ∧
    (∀ m tr f r,
      main cfg env argv vc co dro droplet_input ro file fuel =
        some (MainOut.ran m tr f r) → m = ⟨env "DO_API_TOKEN"⟩) ∧
    (main cfg env argv vc co dro droplet_input ro file fuel).map stripManager =
      (main cfg env2 argv vc co dro droplet_input ro file fuel).map stripManager := by
  refine ⟨?_, rfl, ?_, ?_⟩
  · intro e he
    simp only [main, he]
  · intro m tr f r hm
    cases hrc : read_config cfg with
    | error e0 =>
      simp only [main, hrc] at hm
      cases hm
    | ok config =>
      simp only [main, hrc] at hm
      cases hd : dispatch config argv vc co dro droplet_input ro file fuel with
      | none => rw [hd] at hm; cases hm
      | some p =>
        rw [hd] at hm
        simp only [Option.map_some'] at hm
        injection hm with h2
        injection h2 with hm1 hm2 hm3 hm4
        exact hm1.symm
  · cases hrc : read_config cfg with
    | error e0 => simp only [main, hrc]
    | ok config =>
      cases hd : dispatch config argv vc co dro droplet_input ro file fuel with
      | none => simp only [main, hrc, hd]; rfl
      | some p => simp only [main, hrc, hd]; rfl

/-- C4 (witness): a missing config file aborts the run before any provider
call, and the concrete create runs behave identically under an absent and
an empty credential. -/
theorem C4_witness :
    read_config ConfigSrc.missing = Except.error Err.fileNotFound ∧
    main ConfigSrc.missing env4 ["script.py", "create"] vc4 co4 droD 0 roD none 1 =
      some (MainOut.configError Err.fileNotFound) ∧
    runM4.map stripManager = runM4e.map stripManager := by
  have h1 := C4_config_validated_credential_not ConfigSrc.missing env4 env4e
    ["script.py", "create"] vc4 co4 droD 0 roD none 1
  have h2 := C4_config_validated_credential_not cfg4 env4 env4e
    ["script.py", "create"] vc4 co4 droD 0 roD none 1
  exact ⟨rfl, h1.1 Err.fileNotFound rfl, h2.2.2.2⟩

end Domc
